import Mathlib

/-!
Shallow embedding of the pysand erosion and transport modules
(src/pysand/erosion.py, src/pysand/transport.py).

Modelling conventions:
* Python floats that flow through validation are modelled as exact rationals
  (`PyNum.num`) or the not-a-number sentinel (`PyNum.nan`); validation logic is
  fully computable so that concrete runs reduce in the kernel.
* The numeric payload of a successfully computed erosion rate is a real number
  (`RVal.val`), since the formulas use transcendental functions; `RVal.nan`
  models a propagating float nan result.
* A raised `FunctionInputFail` exception is `Except.error` carrying the message.
* `logger.warning` / `logger.info` calls never influence control flow or return
  values in the source; they are omitted from the embedding (noted in comments).
-/

set_option autoImplicit false

/-- A Python float argument: either an actual (finite) number, modelled as an
exact rational, or the float nan. -/
inductive PyNum where
  | num (q : ℚ)
  | nan
  deriving DecidableEq, Repr

namespace PyNum

/-- `np.isnan`. -/
def isnan : PyNum → Bool
  | nan => true
  | num _ => false

/-- Rational payload (junk `0` on nan; used only after nan was excluded by
validation). -/
def toQ : PyNum → ℚ
  | num q => q
  | nan => 0

/-- Real payload (junk `0` on nan; used only after nan was excluded by
validation). -/
noncomputable def toR : PyNum → ℝ
  | num q => (q : ℝ)
  | nan => 0

/-- Float multiplication at the validation layer (nan propagates). -/
def qmul : PyNum → PyNum → PyNum
  | num a, num b => num (a * b)
  | _, _ => nan

/-- Float division at the validation layer (nan propagates; division by zero
is total on `ℚ`, and no embedded call site divides by zero on a path any
theorem depends on). -/
def qdiv : PyNum → PyNum → PyNum
  | num a, num b => num (a / b)
  | _, _ => nan

/-- Float subtraction at the validation layer (nan propagates). -/
def qsub : PyNum → PyNum → PyNum
  | num a, num b => num (a - b)
  | _, _ => nan

end PyNum

/-- The `crushed` argument as actually received by the Python functions: the
annotation says `bool`, but any object can be passed (claim C5).  We model the
shapes the claims need: booleans, integers and strings. -/
inductive PyCrushed where
  | pybool (b : Bool)
  | pyint (n : ℤ)
  | pystr (s : String)
  deriving DecidableEq, Repr

namespace PyCrushed

/-- `isinstance(crushed, bool)`. -/
def isBool : PyCrushed → Bool
  | pybool _ => true
  | _ => false

/-- Python truthiness, used by `if crushed:`. -/
def truthy : PyCrushed → Bool
  | pybool b => b
  | pyint n => n != 0
  | pystr s => s != ""

end PyCrushed

/-- A float result of an erosion function: a real number or the nan sentinel
(`np.nan` is returned on soft validation failure, and nan propagates through
the float arithmetic applied to a delegated result). -/
inductive RVal where
  | nan
  | val (x : ℝ)

namespace RVal

/-- Float multiplication on results (nan propagates), used for `E_rel * 3`
applied to a delegated result in `flexible` and `choke_gallery`. -/
noncomputable def mul : RVal → RVal → RVal
  | val a, val b => val (a * b)
  | _, _ => nan

/-- Float division on results (nan propagates). -/
noncomputable def div : RVal → RVal → RVal
  | val a, val b => val (a / b)
  | _, _ => nan

end RVal

/-- Outcome of a public erosion function: `error` is a raised
`FunctionInputFail`, `ok RVal.nan` is a returned `np.nan`, `ok (RVal.val x)`
is a returned number. -/
abbrev EROut := Except String RVal

/-- `true` exactly when the call returned an actual number (no exception, not
nan). -/
def EROut.isNum : EROut → Bool
  | .ok (.val _) => true
  | _ => false

/-- `true` exactly when the call raised `FunctionInputFail`. -/
def EROut.isFail : EROut → Bool
  | .error _ => true
  | _ => false

/-- The keyword bundle handed to `erosion.validate_inputs` (each field models
presence or absence of the corresponding key in `kwargs`). -/
structure Kwargs where
  v_m : Option PyNum := none
  rho_m : Option PyNum := none
  mu_m : Option PyNum := none
  Q_s : Option PyNum := none
  crushed : Option PyCrushed := none
  R : Option PyNum := none
  GF : Option PyNum := none
  D : Option PyNum := none
  d_p : Option PyNum := none
  h : Option PyNum := none
  Dm : Option PyNum := none
  D1 : Option PyNum := none
  D2 : Option PyNum := none
  R_c : Option PyNum := none
  gap : Option PyNum := none
  H : Option PyNum := none
  alpha : Option PyNum := none
  At : Option PyNum := none
  rho_p : Option PyNum := none
  model : Option String := none

/-- Sequencing for `validate_inputs`: a raised exception or an early
`return True` (soft fail) aborts the remaining checks. -/
def andThenSoft (r : Except String Bool) (k : Unit → Except String Bool) :
    Except String Bool :=
  match r with
  | .error e => .error e
  | .ok true => .ok true
  | .ok false => k ()

/-- One iteration of the monitored-parameter loop (erosion.py lines 36-42):
nan raises, a negative value returns `True` (the caller then returns nan). -/
def checkMonitored (name : String) (v : Option PyNum) : Except String Bool :=
  match v with
  | none => .ok false
  | some .nan => .error (name ++ " is not a number")
  | some (.num q) => if ¬ q ≥ 0 then .ok true else .ok false

/-- The `crushed` type check (erosion.py lines 44-47): raises when the value
supplied for `crushed` is not a boolean. -/
def checkCrushed (v : Option PyCrushed) : Except String Bool :=
  match v with
  | none => .ok false
  | some c =>
    if ¬ c.isBool then .error "Received a non-boolean for crushed" else .ok false

/-- One iteration of the geometry-parameter number check (erosion.py lines
65-68): nan raises. -/
def checkIsNum (name : String) (v : Option PyNum) : Except String Bool :=
  match v with
  | none => .ok false
  | some .nan => .error (name ++ " is not a number")
  | some (.num _) => .ok false

/-- One iteration of the pipe-diameter positivity check (erosion.py lines
70-75): a non-positive diameter raises.  The preceding range check only logs
a warning. -/
def checkPosDiam (name : String) (v : Option PyNum) : Except String Bool :=
  match v with
  | none => .ok false
  | some .nan => .ok false
  | some (.num q) =>
    if ¬ q > 0 then .error (" Pipe inner diameter, " ++ name ++ ", must be positive")
    else .ok false

/-- One iteration of the choke-gallery positivity check (erosion.py lines
102-105). -/
def checkPosChoke (name : String) (v : Option PyNum) : Except String Bool :=
  match v with
  | none => .ok false
  | some .nan => .ok false
  | some (.num q) =>
    if ¬ q > 0 then .error (name ++ " has to be larger than 0") else .ok false

/-- The cage-gap versus gallery-radius check (erosion.py lines 106-108). -/
def checkGapRc (gap R_c : Option PyNum) : Except String Bool :=
  match gap, R_c with
  | some (.num g), some (.num rc) =>
    if g > rc then .error "The gap between the cage and choke body is larger than the radius"
    else .ok false
  | _, _ => .ok false

/-- `pysand.erosion.validate_inputs` (erosion.py lines 9-113).  `ok true`
models `return True` (the caller must return nan), `ok false` models falling
through (`return None`), `error` models a raised `FunctionInputFail`.

The embedding keeps the exact order of the source checks.  Omitted because
they only emit log messages and never change control flow or data: the
`rho_p` default (line 33-34, used only by the ppmV warning), the boundary
warnings for `v_m`, `rho_m`, `mu_m`, ppmV, diameter range, `d_p` range, `GF`,
`R`, `Dm`, `h` and the nozzlevalve `d_p` warning.  Note line 81 of the source
constructs `exc.FunctionInputFail('Particle diameter cannot be negative')`
without `raise`, so a negative `d_p` neither raises nor soft-fails; the
embedding therefore has no check on the sign of `d_p`. -/
def validate_inputs (kw : Kwargs) : Except String Bool :=
  andThenSoft (checkMonitored "v_m" kw.v_m) fun _ =>
  andThenSoft (checkMonitored "rho_m" kw.rho_m) fun _ =>
  andThenSoft (checkMonitored "mu_m" kw.mu_m) fun _ =>
  andThenSoft (checkMonitored "Q_s" kw.Q_s) fun _ =>
  andThenSoft (checkCrushed kw.crushed) fun _ =>
  andThenSoft (checkIsNum "R" kw.R) fun _ =>
  andThenSoft (checkIsNum "GF" kw.GF) fun _ =>
  andThenSoft (checkIsNum "D" kw.D) fun _ =>
  andThenSoft (checkIsNum "d_p" kw.d_p) fun _ =>
  andThenSoft (checkIsNum "h" kw.h) fun _ =>
  andThenSoft (checkIsNum "Dm" kw.Dm) fun _ =>
  andThenSoft (checkIsNum "D1" kw.D1) fun _ =>
  andThenSoft (checkIsNum "D2" kw.D2) fun _ =>
  andThenSoft (checkIsNum "R_c" kw.R_c) fun _ =>
  andThenSoft (checkIsNum "gap" kw.gap) fun _ =>
  andThenSoft (checkIsNum "H" kw.H) fun _ =>
  andThenSoft (checkIsNum "alpha" kw.alpha) fun _ =>
  andThenSoft (checkIsNum "At" kw.At) fun _ =>
  andThenSoft (checkPosDiam "D" kw.D) fun _ =>
  andThenSoft (checkPosDiam "D1" kw.D1) fun _ =>
  andThenSoft (checkPosDiam "D2" kw.D2) fun _ =>
  andThenSoft (checkPosChoke "R_c" kw.R_c) fun _ =>
  andThenSoft (checkPosChoke "gap" kw.gap) fun _ =>
  andThenSoft (checkPosChoke "H" kw.H) fun _ =>
  andThenSoft (checkGapRc kw.gap kw.R_c) fun _ =>
  .ok false

/-- One entry of the material table (erosion.py lines 485-514). -/
structure MaterialInfo where
  rho_t : ℚ
  K : ℚ
  n : ℚ
  angle_dependency : String
  name : String
  deriving DecidableEq, Repr

/-- `pysand.erosion.material_dict` as an association list in source order. -/
def material_dict : List (String × MaterialInfo) :=
  [("carbon_steel", ⟨7800, 2e-9, 2.6, "ductile", "Carbon steel"⟩),
   ("duplex", ⟨7850, 2e-9, 2.6, "ductile", "Duplex"⟩),
   ("ss316", ⟨8000, 2e-9, 2.6, "ductile", "SS316"⟩),
   ("inconel", ⟨8440, 2e-9, 2.6, "ductile", "Inconel"⟩),
   ("grp_epoxy", ⟨1800, 3e-10, 3.6, "ductile", "GRP Epoxy"⟩),
   ("grp_vinyl_ester", ⟨1800, 6e-10, 3.6, "ductile", "GRP Vinyl Ester"⟩),
   ("hdpe", ⟨1150, 3.5e-9, 2.9, "ductile", "HDPE"⟩),
   ("aluminium", ⟨2700, 5.8e-9, 2.3, "ductile", "Aluminium"⟩),
   ("dc_05_tungsten", ⟨15250, 1.1e-10, 2.3, "brittle", "DC-05 Tungsten"⟩),
   ("cs_10_tungsten", ⟨14800, 3.2e-10, 2.2, "brittle", "CS-10 Tungsten"⟩),
   ("cr_37_tungsten", ⟨14600, 8.8e-11, 2.5, "brittle", "CR-37 Tungsten"⟩),
   ("95_alu_oxide", ⟨3700, 6.8e-8, 2, "brittle", "95 Alu Oxide"⟩),
   ("99_alu_oxide", ⟨3700, 9.5e-7, 1.2, "brittle", "99 Alu Oxide"⟩),
   ("psz_ceramic_zirconia", ⟨5700, 4.1e-9, 2.5, "brittle", "PSZ Ceramic Zirconia"⟩),
   ("ZrO2-Y3_ceramic_zirconia", ⟨6070, 4e-11, 2.7, "brittle", "ZrO2-Y3 Ceramic Zirconia"⟩),
   ("SiC_silicon_carbide", ⟨3100, 6.5e-9, 1.9, "brittle", "Silicon Carbide"⟩),
   ("Si3N4_silicon_nitride", ⟨3200, 2e-10, 2, "brittle", "Silicon Nitride"⟩),
   ("TiB2_titanium_diboride", ⟨4250, 9.3e-9, 1.9, "brittle", "Titanium Diboride"⟩),
   ("B4C_boron_carbide", ⟨2500, 3e-8, 0.9, "brittle", "Boron Carbide"⟩),
   ("SiSiC_ceramic_carbide", ⟨3100, 7.4e-11, 2.7, "brittle", "Ceramic Carbide"⟩)]

/-- `pysand.erosion.get_material_properties` (erosion.py lines 516-531):
unknown identifiers raise `FunctionInputFail`, known ones return the tuple
`(rho_t, K, n, angle_dependency)`. -/
def get_material_properties (material : String) :
    Except String (ℚ × ℚ × ℚ × String) :=
  match material_dict.lookup material with
  | none => .error ("The material " ++ material ++ " is not defined. For a full list of materials run get_materials()")
  | some mi => .ok (mi.rho_t, mi.K, mi.n, mi.angle_dependency)

/-- `pysand.erosion.get_materials` (erosion.py lines 533-537): the key list in
insertion order. -/
def get_materials : List String := material_dict.map Prod.fst

/-- `pysand.erosion.F` (erosion.py lines 542-555), the angle dependency
function over an impact angle in radians. -/
noncomputable def F (a_rad : ℝ) (angle_dependency : String) :
    Except String ℝ :=
  if angle_dependency = "ductile" then
    -- A, B, C, k = .6, 7.2, 20, .6
    .ok (0.6 * (Real.sin a_rad + 7.2 * (Real.sin a_rad - Real.sin a_rad ^ 2)) ^ (0.6 : ℝ) *
      (1 - Real.exp (-(20 * a_rad))))
  else if angle_dependency = "brittle" then
    .ok (2 * a_rad / Real.pi)
  else
    .error ("Angle dependency " ++ angle_dependency ++ " is not defined.")

/-- `np.deg2rad`. -/
noncomputable def deg2rad (x : ℝ) : ℝ := x * Real.pi / 180

/-- `PyNum` viewed as a float result. -/
noncomputable def PyNum.toRVal : PyNum → RVal
  | .num q => .val (q : ℝ)
  | .nan => .nan

/-- The IEEE double `np.pi`, an exact rational, used where a value involving
pi flows back into the (rational) validation layer in `choke_gallery`. -/
def npPi : ℚ := 884279719003555 / 281474976710656

/-- The kwargs bundle built by `bend` (erosion.py line 135). -/
def bendKw (v_m rho_m mu_m R GF D d_p : PyNum) : Kwargs :=
  { v_m := some v_m, rho_m := some rho_m, mu_m := some mu_m, R := some R,
    GF := some GF, D := some D, d_p := some d_p }

/-- The kwargs bundle built by `tee` (erosion.py line 185). -/
def teeKw (v_m rho_m mu_m GF D d_p : PyNum) : Kwargs :=
  { v_m := some v_m, rho_m := some rho_m, mu_m := some mu_m, GF := some GF,
    D := some D, d_p := some d_p }

/-- The kwargs bundle built by `straight_pipe` (erosion.py line 229). -/
def pipeKw (v_m D : PyNum) : Kwargs :=
  { v_m := some v_m, D := some D }

/-- The kwargs bundle built by `welded_joint` (erosion.py line 259). -/
def weldKw (v_m rho_m D d_p h alpha : PyNum) : Kwargs :=
  { v_m := some v_m, rho_m := some rho_m, D := some D, d_p := some d_p,
    h := some h, alpha := some alpha }

/-- The kwargs bundle built by `manifold` (erosion.py line 308). -/
def manifoldKw (D Dm : PyNum) : Kwargs :=
  { D := some D, Dm := some Dm }

/-- The kwargs bundle built by `reducer` (erosion.py line 334). -/
def reducerKw (v_m rho_m D1 D2 GF d_p alpha : PyNum) : Kwargs :=
  { v_m := some v_m, rho_m := some rho_m, D1 := some D1, D2 := some D2,
    GF := some GF, d_p := some d_p, alpha := some alpha }

/-- The kwargs bundle built by `probes` (erosion.py line 373). -/
def probesKw (v_m rho_m D d_p alpha : PyNum) : Kwargs :=
  { v_m := some v_m, rho_m := some rho_m, D := some D, d_p := some d_p,
    alpha := some alpha }

/-- The kwargs bundle built by `choke_gallery` (erosion.py line 438). -/
def chokeKw (R_c gap H : PyNum) : Kwargs :=
  { R_c := some R_c, gap := some gap, H := some H }

/-- The kwargs bundle built by `nozzlevalve_wall` (erosion.py line 470). -/
def nozzleKw (v_m d_p GF At : PyNum) : Kwargs :=
  { v_m := some v_m, d_p := some d_p, GF := some GF, At := some At,
    model := some "nozzlevalve_wall" }

/-- The kwargs bundle built by `erosion_rate` (erosion.py line 564). -/
def erosionRateKw (Q_s : PyNum) : Kwargs :=
  { Q_s := some Q_s }

/-- The shared prologue of every public erosion function:
`if validate_inputs(**kwargs): return np.nan`, with an exception from the
validator propagating. -/
def gate (r : Except String Bool) (k : Unit → EROut) : EROut :=
  match r with
  | .error e => .error e
  | .ok true => .ok .nan
  | .ok false => k ()

/-- Sequencing a fallible intermediate step (material lookup, the angle
function, a delegated geometry call): an exception propagates. -/
def onOk {α : Type} (r : Except String α) (k : α → EROut) : EROut :=
  match r with
  | .error e => .error e
  | .ok x => k x

/-- The shared epilogue of the geometry functions:
`return E_rel * 3 if crushed else E_rel` (Python truthiness of `crushed`). -/
def crushedRet (crushed : PyCrushed) (E_rel : ℝ) : EROut :=
  if crushed.truthy then .ok (.val (E_rel * 3)) else .ok (.val E_rel)

/-- The same epilogue applied to a delegated result that may itself be nan
(`flexible`, `choke_gallery`): float nan propagates through `* 3`. -/
noncomputable def crushedRetR (crushed : PyCrushed) (E_rel : RVal) : EROut :=
  if crushed.truthy then .ok (E_rel.mul (.val 3)) else .ok E_rel

open Classical in
/-- `pysand.erosion.bend` (erosion.py lines 116-164).  Source defaults:
`material='duplex'`, `rho_p=2650`, `crushed=False` (all arguments are
explicit here). -/
noncomputable def bend (v_m rho_m mu_m R GF D d_p : PyNum) (material : String)
    (rho_p : PyNum) (crushed : PyCrushed) : EROut :=
  gate (validate_inputs (bendKw v_m rho_m mu_m R GF D d_p)) fun _ =>
  onOk (get_material_properties material) fun mi =>
  let rho_t := mi.1
  let K := mi.2.1
  let n := mi.2.2.1
  let ad := mi.2.2.2
  let C1 : ℝ := 2.5
  let v := v_m.toR
  let rhom := rho_m.toR
  let mum := mu_m.toR
  let Rr := R.toR
  let gf := GF.toR
  let Dr := D.toR
  let dp := d_p.toR
  let rhop := rho_p.toR
  let a_rad := Real.arctan (1 / (2 * Rr) ^ ((0.5 : ℝ)))
  let Apipe := Real.pi / 4 * Dr ^ 2
  let At := Apipe / Real.sin a_rad
  let gamma := dp / 1000 / Dr
  let A := rhom ^ 2 * Real.tan a_rad * v * Dr / (rhop * mum)
  let beta := rhop / rhom
  let gamma_c0 := 1 / (beta * (1.88 * Real.log A - 6.04))
  let gamma_c := if gamma_c0 ≤ 0 ∨ gamma_c0 > 0.1 then 0.1 else gamma_c0
  let G := if gamma < gamma_c then gamma / gamma_c else 1
  onOk (F a_rad ad) fun Fv =>
  crushedRet crushed ((K : ℝ) * Fv * v ^ ((n : ℝ)) / ((rho_t : ℝ) * At) * G * C1 * gf * 10 ^ 6)

open Classical in
/-- `pysand.erosion.tee` (erosion.py lines 167-216).  Source defaults:
`material='duplex'`, `rho_p=2650`, `crushed=False`. -/
noncomputable def tee (v_m rho_m mu_m GF D d_p : PyNum) (material : String)
    (rho_p : PyNum) (crushed : PyCrushed) : EROut :=
  gate (validate_inputs (teeKw v_m rho_m mu_m GF D d_p)) fun _ =>
  onOk (get_material_properties material) fun mi =>
  let rho_t := mi.1
  let K := mi.2.1
  let n := mi.2.2.1
  let v := v_m.toR
  let rhom := rho_m.toR
  let mum := mu_m.toR
  let gf := GF.toR
  let Dr := D.toR
  let dp := d_p.toR
  let rhop := rho_p.toR
  let gamma := dp / 1000 / Dr
  let beta := rhop / rhom
  let Re := v * Dr * rhom / mum
  let b := (Real.log (Re / 10000 + 1) + 1) ^ ((-0.6 : ℝ)) - 1.2
  let gamma_c := if beta < 40 then 0.14 / beta else 0.0035 * (beta / 40) ^ b
  let c := if beta < 40 then
      (if gamma < gamma_c then 19 / Real.log Re else 0)
    else
      (if gamma < gamma_c then 19 / Real.log Re
       else -0.3 * (1 - (1.01 : ℝ) ^ (40 - beta)))
  let C1 := if beta < 40 then 3 / beta ^ ((0.3 : ℝ)) else 1
  let G := (gamma / gamma_c) ^ c
  let At := Real.pi / 4 * Dr ^ 2
  crushedRet crushed ((K : ℝ) * v ^ ((n : ℝ)) / ((rho_t : ℝ) * At) * G * C1 * gf * 10 ^ 6)

/-- `pysand.erosion.straight_pipe` (erosion.py lines 219-237). -/
noncomputable def straight_pipe (v_m D : PyNum) (crushed : PyCrushed) : EROut :=
  gate (validate_inputs (pipeKw v_m D)) fun _ =>
  let v := v_m.toR
  let Dr := D.toR
  let C_unit : ℝ := 1000 * 3600 * 24 * 365.25
  crushedRet crushed (2.5e-5 * v ^ ((2.6 : ℝ)) * Dr ^ ((-2 : ℤ)) * (10 ^ 6 / C_unit))

open Classical in
/-- `pysand.erosion.welded_joint` (erosion.py lines 240-287).  Source
defaults: `alpha=60`, `location='downstream'`, `material='duplex'`,
`crushed=False`.  The out-of-range alpha check only logs a warning. -/
noncomputable def welded_joint (v_m rho_m D d_p h alpha : PyNum)
    (location material : String) (crushed : PyCrushed) : EROut :=
  gate (validate_inputs (weldKw v_m rho_m D d_p h alpha)) fun _ =>
  onOk (get_material_properties material) fun mi =>
  let rho_t := mi.1
  let K := mi.2.1
  let n := mi.2.2.1
  let ad := mi.2.2.2
  let v := v_m.toR
  let rhom := rho_m.toR
  let Dr := D.toR
  let dp := d_p.toR
  let hr := h.toR
  let A_pipe := Real.pi * Dr ^ 2 / 4
  let a_rad := deg2rad alpha.toR
  let C_unit : ℝ := 3.15e10
  let C2v := 10 ^ 6 * dp / 1000 / (30 * rhom ^ ((0.5 : ℝ)))
  let C2 := if C2v ≥ 1 then 1 else C2v
  if location = "downstream" then
    crushedRet crushed (3.3e-2 * (7.5e-4 + hr) * v ^ ((n : ℝ)) * Dr ^ ((-2 : ℤ)) * (10 ^ 6 / C_unit))
  else if location = "upstream" then
    onOk (F a_rad ad) fun Fv =>
    crushedRet crushed ((K : ℝ) * Fv * v ^ ((n : ℝ)) * Real.sin a_rad / ((rho_t : ℝ) * A_pipe) * C2 * 10 ^ 6)
  else
    .error ("Location must be either downstream or upstream. " ++ location ++ " is passed.")

/-- `pysand.erosion.manifold` (erosion.py lines 290-313).  Source defaults:
`rho_p=2650`, `material='duplex'`, `crushed=False`. -/
noncomputable def manifold (v_m rho_m mu_m GF D d_p Dm rho_p : PyNum)
    (material : String) (crushed : PyCrushed) : EROut :=
  gate (validate_inputs (manifoldKw D Dm)) fun _ =>
  -- R = Dm / D - 0.5, the synthetic bend radius
  let R := (Dm.qdiv D).qsub (PyNum.num (1 / 2))
  bend v_m rho_m mu_m R GF D d_p material rho_p crushed

open Classical in
/-- `pysand.erosion.reducer` (erosion.py lines 316-356).  Source defaults:
`GF=2`, `alpha=60`, `material='duplex'`, `crushed=False`.  The out-of-range
alpha check only logs a warning. -/
noncomputable def reducer (v_m rho_m D1 D2 d_p GF alpha : PyNum)
    (material : String) (crushed : PyCrushed) : EROut :=
  gate (validate_inputs (reducerKw v_m rho_m D1 D2 GF d_p alpha)) fun _ =>
  onOk (get_material_properties material) fun mi =>
  let rho_t := mi.1
  let K := mi.2.1
  let n := mi.2.2.1
  let ad := mi.2.2.2
  let v := v_m.toR
  let rhom := rho_m.toR
  let D1r := D1.toR
  let D2r := D2.toR
  let dp := d_p.toR
  let gf := GF.toR
  let a_rad := deg2rad alpha.toR
  let At := Real.pi / (4 * Real.sin a_rad) * (D1r ^ 2 - D2r ^ 2)
  let Aratio := 1 - (D2r / D1r) ^ 2
  let Up := v * (D1r / D2r) ^ 2
  let C2v := 10 ^ 6 * dp / 1000 / (30 * rhom ^ ((0.5 : ℝ)))
  let C2 := if C2v ≥ 1 then 1 else C2v
  onOk (F a_rad ad) fun Fv =>
  crushedRet crushed ((K : ℝ) * Fv * Up ^ ((n : ℝ)) / ((rho_t : ℝ) * At) * Aratio * C2 * gf * 10 ^ 6)

open Classical in
/-- `pysand.erosion.probes` (erosion.py lines 358-393).  Source defaults:
`alpha=60`, `material='duplex'`, `crushed=False`.  The out-of-range alpha
check only logs a warning. -/
noncomputable def probes (v_m rho_m D d_p alpha : PyNum) (material : String)
    (crushed : PyCrushed) : EROut :=
  gate (validate_inputs (probesKw v_m rho_m D d_p alpha)) fun _ =>
  onOk (get_material_properties material) fun mi =>
  let rho_t := mi.1
  let K := mi.2.1
  let n := mi.2.2.1
  let ad := mi.2.2.2
  let v := v_m.toR
  let rhom := rho_m.toR
  let Dr := D.toR
  let dp := d_p.toR
  let a_rad := deg2rad alpha.toR
  let At := Real.pi / 4 * Dr ^ 2 * 1 / Real.sin a_rad
  let C2v := 10 ^ 6 * dp / 1000 / (30 * rhom ^ ((0.5 : ℝ)))
  let C2 := if C2v ≥ 1 then 1 else C2v
  onOk (F a_rad ad) fun Fv =>
  crushedRet crushed ((K : ℝ) * Fv * v ^ ((n : ℝ)) / ((rho_t : ℝ) * At) * C2 * 10 ^ 6)

/-- `pysand.erosion.flexible` (erosion.py lines 396-417).  Delegates to `bend`
with `GF = 2` and the bend defaults `rho_p=2650`, `crushed=False`, then
applies its own `crushed` tripling to the (possibly nan) result. -/
noncomputable def flexible (v_m rho_m mu_m mbr D d_p : PyNum)
    (material : String) (crushed : PyCrushed) : EROut :=
  onOk (bend v_m rho_m mu_m mbr (PyNum.num 2) D d_p material (PyNum.num 2650)
      (PyCrushed.pybool false)) fun E_rel =>
  crushedRetR crushed E_rel

/-- `pysand.erosion.choke_gallery` (erosion.py lines 420-454).  Source
defaults: `material='cr_37_tungsten'`, `crushed=False`.  The gallery velocity
`v_c` and synthetic radius are computed in float arithmetic (here: exact
rationals, with the IEEE double value of `np.pi`) and passed to `bend`, where
they are validated. -/
noncomputable def choke_gallery (v_m rho_m mu_m GF D d_p R_c gap H : PyNum)
    (material : String) (crushed : PyCrushed) : EROut :=
  gate (validate_inputs (chokeKw R_c gap H)) fun _ =>
  let Ag := ((PyNum.num 2).qmul H).qmul gap
  let Q := ((v_m.qmul (PyNum.num npPi)).qdiv (PyNum.num 4)).qmul (D.qmul D)
  let v_c := ((PyNum.num (3 / 4)).qmul Q).qdiv Ag
  let R := R_c.qdiv gap
  onOk (bend v_c rho_m mu_m R GF gap d_p material (PyNum.num 2650)
      (PyCrushed.pybool false)) fun E0 =>
  -- E_rel = bend(...) / C1_bend * C1_choke
  crushedRetR crushed ((E0.div (.val 2.5)).mul (.val 1.25))

/-- `pysand.erosion.nozzlevalve_wall` (erosion.py lines 457-482).  Source
defaults: `material='duplex'`, `crushed=False`. -/
noncomputable def nozzlevalve_wall (v_m d_p GF At : PyNum) (material : String)
    (crushed : PyCrushed) : EROut :=
  gate (validate_inputs (nozzleKw v_m d_p GF At)) fun _ =>
  let v := v_m.toR
  let dp := d_p.toR
  let gf := GF.toR
  let Atr := At.toR
  let C1 := 8.33 * dp ^ 3 - 29.2 * dp ^ 2 + 22.8 * dp + 1
  onOk (get_material_properties material) fun mi =>
  let rho_t := mi.1
  let K := mi.2.1
  let n := mi.2.2.1
  crushedRet crushed ((K : ℝ) * v ^ ((n : ℝ)) / (2 * (rho_t : ℝ) * Atr) * C1 * gf * 10 ^ 6)

/-- `pysand.erosion.erosion_rate` (erosion.py lines 558-570). -/
noncomputable def erosion_rate (E_rel Q_s : PyNum) : EROut :=
  gate (validate_inputs (erosionRateKw Q_s)) fun _ =>
  let C_unit : ℝ := 1000 * 3600 * 24 * 365.25
  .ok (((E_rel.toRVal.div (.val (10 ^ 6))).mul ((Q_s.toRVal).div (.val 1000))).mul (.val C_unit))

namespace Transport

/-- The keyword bundle handed to `transport.validate_inputs`. -/
structure TKwargs where
  rho_m : Option PyNum := none
  rho_l : Option PyNum := none
  mu_m : Option PyNum := none
  mu_l : Option PyNum := none
  d_p : Option PyNum := none
  e : Option PyNum := none
  rho_p : Option PyNum := none
  D : Option PyNum := none
  angle : Option PyNum := none

/-- The inclination-angle check of `transport.validate_inputs` (transport.py
lines 138-142): nan raises, and so does an angle outside `[0, 89]`. -/
def checkAngle (v : Option PyNum) : Except String Bool :=
  match v with
  | none => .ok false
  | some .nan => .error "angle is not a number"
  | some (.num q) =>
    if q < 0 ∨ q > 89 then
      .error "The inclination has to be positive and below 90 deg."
    else .ok false

/-- `pysand.transport.validate_inputs` (transport.py lines 128-144): each
listed parameter raises on nan and soft-fails (returns `True`) on a negative
value, in order; then the angle check runs.  Warnings are omitted as in the
erosion validator. -/
def validate_inputs (kw : TKwargs) : Except String Bool :=
  andThenSoft (checkMonitored "rho_m" kw.rho_m) fun _ =>
  andThenSoft (checkMonitored "rho_l" kw.rho_l) fun _ =>
  andThenSoft (checkMonitored "mu_m" kw.mu_m) fun _ =>
  andThenSoft (checkMonitored "mu_l" kw.mu_l) fun _ =>
  andThenSoft (checkMonitored "d_p" kw.d_p) fun _ =>
  andThenSoft (checkMonitored "e" kw.e) fun _ =>
  andThenSoft (checkMonitored "rho_p" kw.rho_p) fun _ =>
  andThenSoft (checkMonitored "D" kw.D) fun _ =>
  andThenSoft (checkAngle kw.angle) fun _ =>
  .ok false

/-- The kwargs bundle built by `stokes` (transport.py line 107). -/
def stokesKw (rho_m mu_m d_p angle rho_p : PyNum) : TKwargs :=
  { rho_m := some rho_m, mu_m := some mu_m, d_p := some d_p,
    angle := some angle, rho_p := some rho_p }

/-- The input-validation stage of `pysand.transport.stokes` (transport.py
lines 106-109).  `stokes` raises `FunctionInputFail` exactly when this call
raises: everything after validation is the bounded scipy minimisation, which
returns a rounded number or nan but raises no input-failure condition. -/
def stokes_validation (rho_m mu_m d_p angle rho_p : PyNum) :
    Except String Bool :=
  validate_inputs (stokesKw rho_m mu_m d_p angle rho_p)

end Transport

/-- Shape of an optional numeric argument that is present and an actual
number. -/
def numOk (o : Option PyNum) : Prop := o = none ∨ ∃ q : ℚ, o = some (.num q)

/-- Present-or-absent numeric argument that is nonnegative when present. -/
def nonnegOk (o : Option PyNum) : Prop :=
  o = none ∨ ∃ q : ℚ, o = some (.num q) ∧ 0 ≤ q

/-- Present-or-absent numeric argument that is positive when present. -/
def posOk (o : Option PyNum) : Prop :=
  o = none ∨ ∃ q : ℚ, o = some (.num q) ∧ 0 < q

/-- Present-or-absent `crushed` argument that is an actual boolean when
present. -/
def crushedOk (o : Option PyCrushed) : Prop :=
  o = none ∨ ∃ b : Bool, o = some (.pybool b)

/-- The gap does not exceed the gallery radius whenever both are present. -/
def gapOk (gap R_c : Option PyNum) : Prop :=
  ∀ g rc : ℚ, gap = some (.num g) → R_c = some (.num rc) → g ≤ rc

/-- Numeric payload of a result (junk `0` when the result is not a number);
used to state concrete instances of the crushed-tripling property. -/
noncomputable def EROut.getVal : EROut → ℝ
  | .ok (.val x) => x
  | _ => 0

/-! Reduction and shape lemmas for the validator and the shared combinators. -/

@[simp] theorem andThenSoft_error (e : String) (k : Unit → Except String Bool) :
    andThenSoft (.error e) k = .error e := rfl

@[simp] theorem andThenSoft_true (k : Unit → Except String Bool) :
    andThenSoft (.ok true) k = .ok true := rfl

@[simp] theorem andThenSoft_false (k : Unit → Except String Bool) :
    andThenSoft (.ok false) k = k () := rfl

@[simp] theorem gate_error (e : String) (k : Unit → EROut) :
    gate (.error e) k = .error e := rfl

@[simp] theorem gate_nan (k : Unit → EROut) : gate (.ok true) k = .ok .nan := rfl

@[simp] theorem gate_go (k : Unit → EROut) : gate (.ok false) k = k () := rfl

@[simp] theorem onOk_error {α : Type} (e : String) (k : α → EROut) :
    onOk (.error e) k = .error e := rfl

@[simp] theorem onOk_ok {α : Type} (x : α) (k : α → EROut) :
    onOk (.ok x) k = k x := rfl

@[simp] theorem crushedRet_false (E : ℝ) :
    crushedRet (.pybool false) E = .ok (.val E) := rfl

@[simp] theorem crushedRet_true (E : ℝ) :
    crushedRet (.pybool true) E = .ok (.val (E * 3)) := rfl

@[simp] theorem crushedRetR_false (E : RVal) :
    crushedRetR (.pybool false) E = .ok E := rfl

@[simp] theorem crushedRetR_true (E : RVal) :
    crushedRetR (.pybool true) E = .ok (E.mul (.val 3)) := rfl

theorem checkMonitored_neg {q : ℚ} (s : String) (h : q < 0) :
    checkMonitored s (some (.num q)) = .ok true := by
  simp [checkMonitored, not_le.mpr h]

theorem checkMonitored_nonneg {q : ℚ} (s : String) (h : 0 ≤ q) :
    checkMonitored s (some (.num q)) = .ok false := by
  simp [checkMonitored, h]

theorem numOk_none : numOk none := Or.inl rfl

theorem numOk_some (q : ℚ) : numOk (some (.num q)) := Or.inr ⟨q, rfl⟩

theorem nonnegOk_none : nonnegOk none := Or.inl rfl

theorem nonnegOk_some {q : ℚ} (h : 0 ≤ q) : nonnegOk (some (.num q)) :=
  Or.inr ⟨q, rfl, h⟩

theorem posOk_none : posOk none := Or.inl rfl

theorem posOk_some {q : ℚ} (h : 0 < q) : posOk (some (.num q)) :=
  Or.inr ⟨q, rfl, h⟩

theorem posOk_numOk {o : Option PyNum} (h : posOk o) : numOk o := by
  rcases h with h | ⟨q, h, _⟩
  · exact Or.inl h
  · exact Or.inr ⟨q, h⟩

theorem nonnegOk_numOk {o : Option PyNum} (h : nonnegOk o) : numOk o := by
  rcases h with h | ⟨q, h, _⟩
  · exact Or.inl h
  · exact Or.inr ⟨q, h⟩

theorem checkMonitored_of_nonnegOk (s : String) {o : Option PyNum}
    (h : nonnegOk o) : checkMonitored s o = .ok false := by
  rcases h with h | ⟨q, h, hq⟩ <;> subst h
  · rfl
  · exact checkMonitored_nonneg s hq

theorem checkCrushed_of_crushedOk {o : Option PyCrushed} (h : crushedOk o) :
    checkCrushed o = .ok false := by
  rcases h with h | ⟨b, h⟩ <;> subst h <;> rfl

theorem checkIsNum_of_numOk (s : String) {o : Option PyNum} (h : numOk o) :
    checkIsNum s o = .ok false := by
  rcases h with h | ⟨q, h⟩ <;> subst h <;> rfl

theorem checkPosDiam_of_posOk (s : String) {o : Option PyNum} (h : posOk o) :
    checkPosDiam s o = .ok false := by
  rcases h with h | ⟨q, h, hq⟩ <;> subst h
  · rfl
  · simp [checkPosDiam, hq]

theorem checkPosChoke_of_posOk (s : String) {o : Option PyNum} (h : posOk o) :
    checkPosChoke s o = .ok false := by
  rcases h with h | ⟨q, h, hq⟩ <;> subst h
  · rfl
  · simp [checkPosChoke, hq]

theorem checkGapRc_of_gapOk {gap R_c : Option PyNum} (hg : numOk gap)
    (hrc : numOk R_c) (h : gapOk gap R_c) : checkGapRc gap R_c = .ok false := by
  rcases hg with hg | ⟨g, hg⟩ <;> subst hg
  · rcases hrc with hrc | ⟨rc, hrc⟩ <;> subst hrc <;> rfl
  · rcases hrc with hrc | ⟨rc, hrc⟩ <;> subst hrc
    · rfl
    · simp [checkGapRc, not_lt.mpr (h g rc rfl rfl)]

/-- The erosion validator passes (returns `ok false`) for any bundle whose
monitored entries are nonnegative numbers, whose geometry entries are actual
numbers with the strictly-validated ones positive, whose `crushed` entry (if
any) is a boolean, and whose gap does not exceed the gallery radius. -/
theorem validate_pass (kw : Kwargs)
    (h1 : nonnegOk kw.v_m) (h2 : nonnegOk kw.rho_m) (h3 : nonnegOk kw.mu_m)
    (h4 : nonnegOk kw.Q_s) (h5 : crushedOk kw.crushed)
    (h6 : numOk kw.R) (h7 : numOk kw.GF) (h8 : posOk kw.D) (h9 : numOk kw.d_p)
    (h10 : numOk kw.h) (h11 : numOk kw.Dm) (h12 : posOk kw.D1)
    (h13 : posOk kw.D2) (h14 : posOk kw.R_c) (h15 : posOk kw.gap)
    (h16 : posOk kw.H) (h17 : numOk kw.alpha) (h18 : numOk kw.At)
    (h19 : gapOk kw.gap kw.R_c) :
    validate_inputs kw = .ok false := by
  unfold validate_inputs
  rw [checkMonitored_of_nonnegOk _ h1, andThenSoft_false,
    checkMonitored_of_nonnegOk _ h2, andThenSoft_false,
    checkMonitored_of_nonnegOk _ h3, andThenSoft_false,
    checkMonitored_of_nonnegOk _ h4, andThenSoft_false,
    checkCrushed_of_crushedOk h5, andThenSoft_false,
    checkIsNum_of_numOk _ h6, andThenSoft_false,
    checkIsNum_of_numOk _ h7, andThenSoft_false,
    checkIsNum_of_numOk _ (posOk_numOk h8), andThenSoft_false,
    checkIsNum_of_numOk _ h9, andThenSoft_false,
    checkIsNum_of_numOk _ h10, andThenSoft_false,
    checkIsNum_of_numOk _ h11, andThenSoft_false,
    checkIsNum_of_numOk _ (posOk_numOk h12), andThenSoft_false,
    checkIsNum_of_numOk _ (posOk_numOk h13), andThenSoft_false,
    checkIsNum_of_numOk _ (posOk_numOk h14), andThenSoft_false,
    checkIsNum_of_numOk _ (posOk_numOk h15), andThenSoft_false,
    checkIsNum_of_numOk _ (posOk_numOk h16), andThenSoft_false,
    checkIsNum_of_numOk _ h17, andThenSoft_false,
    checkIsNum_of_numOk _ h18, andThenSoft_false,
    checkPosDiam_of_posOk _ h8, andThenSoft_false,
    checkPosDiam_of_posOk _ h12, andThenSoft_false,
    checkPosDiam_of_posOk _ h13, andThenSoft_false,
    checkPosChoke_of_posOk _ h14, andThenSoft_false,
    checkPosChoke_of_posOk _ h15, andThenSoft_false,
    checkPosChoke_of_posOk _ h16, andThenSoft_false,
    checkGapRc_of_gapOk (posOk_numOk h15) (posOk_numOk h14) h19,
    andThenSoft_false]

@[simp] theorem checkMonitored_none (s : String) :
    checkMonitored s none = .ok false := rfl

theorem gapOk_none_left {o : Option PyNum} : gapOk none o :=
  fun _ _ hg _ => nomatch hg

theorem gapOk_le {g rc : ℚ} (h : g ≤ rc) :
    gapOk (some (.num g)) (some (.num rc)) := by
  intro g1 rc1 hg hrc
  cases hg
  cases hrc
  exact h

/-- Soft fail of the erosion validator when `v_m` is present and negative
(first iteration of the monitored loop). -/
theorem validate_soft_v_m (kw : Kwargs) {a : ℚ} (hv : kw.v_m = some (.num a))
    (ha : a < 0) : validate_inputs kw = .ok true := by
  unfold validate_inputs
  rw [hv, checkMonitored_neg _ ha, andThenSoft_true]

/-- Soft fail of the erosion validator when `rho_m` is present and negative
while `v_m` is a nonnegative number. -/
theorem validate_soft_rho_m (kw : Kwargs) {a b : ℚ}
    (hv : kw.v_m = some (.num a)) (ha : 0 ≤ a)
    (hr : kw.rho_m = some (.num b)) (hb : b < 0) :
    validate_inputs kw = .ok true := by
  unfold validate_inputs
  rw [hv, checkMonitored_nonneg _ ha, andThenSoft_false, hr,
    checkMonitored_neg _ hb, andThenSoft_true]

/-- Soft fail of the erosion validator when `mu_m` is present and negative
while `v_m` and `rho_m` are nonnegative numbers. -/
theorem validate_soft_mu_m (kw : Kwargs) {a b c : ℚ}
    (hv : kw.v_m = some (.num a)) (ha : 0 ≤ a)
    (hr : kw.rho_m = some (.num b)) (hb : 0 ≤ b)
    (hm : kw.mu_m = some (.num c)) (hc : c < 0) :
    validate_inputs kw = .ok true := by
  unfold validate_inputs
  rw [hv, checkMonitored_nonneg _ ha, andThenSoft_false, hr,
    checkMonitored_nonneg _ hb, andThenSoft_false, hm,
    checkMonitored_neg _ hc, andThenSoft_true]

/-- Soft fail of the erosion validator when `Q_s` is present and negative and
the other monitored parameters are absent (the `erosion_rate` bundle). -/
theorem validate_soft_Q_s (kw : Kwargs) (h1 : kw.v_m = none)
    (h2 : kw.rho_m = none) (h3 : kw.mu_m = none) {q : ℚ}
    (hq : kw.Q_s = some (.num q)) (h : q < 0) :
    validate_inputs kw = .ok true := by
  unfold validate_inputs
  rw [h1, checkMonitored_none, andThenSoft_false, h2, checkMonitored_none,
    andThenSoft_false, h3, checkMonitored_none, andThenSoft_false, hq,
    checkMonitored_neg _ h, andThenSoft_true]

/-- Soft fail when `v_m`, `rho_m`, `mu_m` are all present numbers and at
least one of them is negative (the first negative one is hit by the loop). -/
theorem validate_soft_mon3 (kw : Kwargs) {a b c : ℚ}
    (hv : kw.v_m = some (.num a)) (hr : kw.rho_m = some (.num b))
    (hm : kw.mu_m = some (.num c)) (h : a < 0 ∨ b < 0 ∨ c < 0) :
    validate_inputs kw = .ok true := by
  rcases h with ha | hb | hc
  · exact validate_soft_v_m kw hv ha
  · by_cases ha : a < 0
    · exact validate_soft_v_m kw hv ha
    · exact validate_soft_rho_m kw hv (not_lt.mp ha) hr hb
  · by_cases ha : a < 0
    · exact validate_soft_v_m kw hv ha
    · by_cases hb : b < 0
      · exact validate_soft_rho_m kw hv (not_lt.mp ha) hr hb
      · exact validate_soft_mu_m kw hv (not_lt.mp ha) hr (not_lt.mp hb) hm hc

/-- Soft fail when `v_m` and `rho_m` are present numbers and at least one of
them is negative. -/
theorem validate_soft_mon2 (kw : Kwargs) {a b : ℚ}
    (hv : kw.v_m = some (.num a)) (hr : kw.rho_m = some (.num b))
    (h : a < 0 ∨ b < 0) : validate_inputs kw = .ok true := by
  rcases h with ha | hb
  · exact validate_soft_v_m kw hv ha
  · by_cases ha : a < 0
    · exact validate_soft_v_m kw hv ha
    · exact validate_soft_rho_m kw hv (not_lt.mp ha) hr hb

/-- The crushed epilogue maps a propagating nan result to a returned nan for
any value of the flag. -/
theorem crushedRetR_nan (crushed : PyCrushed) :
    crushedRetR crushed .nan = .ok .nan := by
  unfold crushedRetR
  cases h : crushed.truthy <;> simp [RVal.mul]

@[simp] theorem RVal.nan_div (x : RVal) : RVal.div .nan x = .nan := rfl

@[simp] theorem RVal.nan_mul (x : RVal) : RVal.mul .nan x = .nan := rfl

@[simp] theorem RVal.val_div_val (a b : ℝ) :
    RVal.div (.val a) (.val b) = .val (a / b) := rfl

@[simp] theorem RVal.val_mul_val (a b : ℝ) :
    RVal.mul (.val a) (.val b) = .val (a * b) := rfl

/-- `bend` returns nan when one of its monitored inputs is a negative number
(the remaining arguments are arbitrary). -/
theorem bend_nan (a b c : ℚ) (R GF D d_p : PyNum) (material : String)
    (rho_p : PyNum) (crushed : PyCrushed) (h : a < 0 ∨ b < 0 ∨ c < 0) :
    bend (.num a) (.num b) (.num c) R GF D d_p material rho_p crushed =
      .ok .nan := by
  unfold bend
  rw [validate_soft_mon3 _ rfl rfl rfl h, gate_nan]

/-- `tee` returns nan when one of its monitored inputs is a negative
number. -/
theorem tee_nan (a b c : ℚ) (GF D d_p : PyNum) (material : String)
    (rho_p : PyNum) (crushed : PyCrushed) (h : a < 0 ∨ b < 0 ∨ c < 0) :
    tee (.num a) (.num b) (.num c) GF D d_p material rho_p crushed =
      .ok .nan := by
  unfold tee
  rw [validate_soft_mon3 _ rfl rfl rfl h, gate_nan]

/-- `straight_pipe` returns nan when `v_m` is a negative number. -/
theorem straight_pipe_nan {a : ℚ} (D : PyNum) (crushed : PyCrushed)
    (h : a < 0) : straight_pipe (.num a) D crushed = .ok .nan := by
  unfold straight_pipe
  rw [validate_soft_v_m _ rfl h, gate_nan]

/-- `welded_joint` returns nan when `v_m` or `rho_m` is a negative number. -/
theorem welded_joint_nan (a b : ℚ) (D d_p h alpha : PyNum)
    (location material : String) (crushed : PyCrushed) (hn : a < 0 ∨ b < 0) :
    welded_joint (.num a) (.num b) D d_p h alpha location material crushed =
      .ok .nan := by
  unfold welded_joint
  rw [validate_soft_mon2 _ rfl rfl hn, gate_nan]

/-- `reducer` returns nan when `v_m` or `rho_m` is a negative number. -/
theorem reducer_nan (a b : ℚ) (D1 D2 d_p GF alpha : PyNum)
    (material : String) (crushed : PyCrushed) (hn : a < 0 ∨ b < 0) :
    reducer (.num a) (.num b) D1 D2 d_p GF alpha material crushed =
      .ok .nan := by
  unfold reducer
  rw [validate_soft_mon2 _ rfl rfl hn, gate_nan]

/-- `probes` returns nan when `v_m` or `rho_m` is a negative number. -/
theorem probes_nan (a b : ℚ) (D d_p alpha : PyNum) (material : String)
    (crushed : PyCrushed) (hn : a < 0 ∨ b < 0) :
    probes (.num a) (.num b) D d_p alpha material crushed = .ok .nan := by
  unfold probes
  rw [validate_soft_mon2 _ rfl rfl hn, gate_nan]

/-- `nozzlevalve_wall` returns nan when `v_m` is a negative number. -/
theorem nozzlevalve_wall_nan {a : ℚ} (d_p GF At : PyNum) (material : String)
    (crushed : PyCrushed) (h : a < 0) :
    nozzlevalve_wall (.num a) d_p GF At material crushed = .ok .nan := by
  unfold nozzlevalve_wall
  rw [validate_soft_v_m _ rfl h, gate_nan]

/-- `erosion_rate` returns nan when `Q_s` is a negative number. -/
theorem erosion_rate_nan (E_rel : PyNum) {q : ℚ} (h : q < 0) :
    erosion_rate E_rel (.num q) = .ok .nan := by
  unfold erosion_rate
  rw [validate_soft_Q_s _ rfl rfl rfl rfl h, gate_nan]

/-- `flexible` returns nan when one of its monitored inputs is a negative
number (the delegated bend call soft-fails and nan propagates through the
crushed tripling). -/
theorem flexible_nan (a b c : ℚ) (mbr D d_p : PyNum) (material : String)
    (crushed : PyCrushed) (h : a < 0 ∨ b < 0 ∨ c < 0) :
    flexible (.num a) (.num b) (.num c) mbr D d_p material crushed =
      .ok .nan := by
  unfold flexible
  rw [bend_nan _ _ _ _ _ _ _ _ _ _ h, onOk_ok, crushedRetR_nan]

/-- `manifold` returns nan when one of its monitored inputs is a negative
number, provided its own validated parameter `D` is positive (otherwise its
validator raises before `bend` ever sees the negative value). -/
theorem manifold_nan (a b c : ℚ) (GF : PyNum) {d : ℚ} (d_p : PyNum)
    {dm : ℚ} (rho_p : PyNum) (material : String) (crushed : PyCrushed)
    (hd : 0 < d) (h : a < 0 ∨ b < 0 ∨ c < 0) :
    manifold (.num a) (.num b) (.num c) GF (.num d) d_p (.num dm) rho_p
      material crushed = .ok .nan := by
  unfold manifold
  rw [validate_pass (manifoldKw (.num d) (.num dm)) nonnegOk_none
    nonnegOk_none nonnegOk_none nonnegOk_none (Or.inl rfl) numOk_none
    numOk_none (posOk_some hd) numOk_none numOk_none (numOk_some dm)
    posOk_none posOk_none posOk_none posOk_none posOk_none numOk_none
    numOk_none gapOk_none_left, gate_go]
  exact bend_nan _ _ _ _ _ _ _ _ _ _ h

/-- `choke_gallery` returns nan when a monitored input is a negative number,
provided its validated gallery parameters pass their fatal checks and, in the
case where only `v_m` is negative, the upstream diameter is nonzero (with
`D = 0` the computed gallery velocity is zero and the delegated bend call
does not soft-fail on it). -/
theorem choke_gallery_nan (a b c : ℚ) (GF : PyNum) {d : ℚ} (d_p : PyNum)
    {rc g hh : ℚ} (material : String) (crushed : PyCrushed)
    (hrc : 0 < rc) (hg : 0 < g) (hh1 : 0 < hh) (hgr : g ≤ rc)
    (h : (a < 0 ∧ d ≠ 0) ∨ b < 0 ∨ c < 0) :
    choke_gallery (.num a) (.num b) (.num c) GF (.num d) d_p (.num rc)
      (.num g) (.num hh) material crushed = .ok .nan := by
  unfold choke_gallery
  rw [validate_pass (chokeKw (.num rc) (.num g) (.num hh)) nonnegOk_none
    nonnegOk_none nonnegOk_none nonnegOk_none (Or.inl rfl) numOk_none
    numOk_none posOk_none numOk_none numOk_none numOk_none posOk_none
    posOk_none (posOk_some hrc) (posOk_some hg) (posOk_some hh1) numOk_none
    numOk_none (gapOk_le hgr), gate_go]
  simp only [PyNum.qmul, PyNum.qdiv]
  have hdisj : (3 : ℚ) / 4 * (a * npPi / 4 * (d * d)) / (2 * hh * g) < 0 ∨
      b < 0 ∨ c < 0 := by
    rcases h with ⟨ha, hd⟩ | hb | hc
    · left
      have hpi : (0 : ℚ) < npPi := by norm_num [npPi]
      have hd2 : (0 : ℚ) < d * d := mul_self_pos.mpr hd
      have h1 : a * npPi / 4 < 0 :=
        div_neg_of_neg_of_pos (mul_neg_of_neg_of_pos ha hpi) (by norm_num)
      have h2 : a * npPi / 4 * (d * d) < 0 := mul_neg_of_neg_of_pos h1 hd2
      have h3 : (3 : ℚ) / 4 * (a * npPi / 4 * (d * d)) < 0 :=
        mul_neg_of_pos_of_neg (by norm_num) h2
      exact div_neg_of_neg_of_pos h3
        (mul_pos (mul_pos (by norm_num) hh1) hg)
    · exact Or.inr (Or.inl hb)
    · exact Or.inr (Or.inr hc)
  rw [bend_nan _ _ _ _ _ _ _ _ _ _ hdisj, onOk_ok]
  simp only [RVal.nan_div, RVal.nan_mul]
  exact crushedRetR_nan crushed

/-- `F` succeeds on every angle for the two defined dependency classes. -/
theorem F_ok (θ : ℝ) {ad : String} (had : ad = "ductile" ∨ ad = "brittle") :
    ∃ x, F θ ad = .ok x := by
  rcases had with h | h <;> subst h
  · exact ⟨_, rfl⟩
  · exact ⟨_, rfl⟩

/-- The crushed epilogue always returns a number. -/
theorem crushedRet_val (cr : PyCrushed) (E : ℝ) :
    ∃ x, crushedRet cr E = .ok (.val x) := by
  cases h : cr.truthy
  · exact ⟨E, by simp [crushedRet, h]⟩
  · exact ⟨E * 3, by simp [crushedRet, h]⟩

/-- Binding a successful `F` evaluation into the crushed epilogue returns a
number. -/
theorem onOk_F_crushedRet_val (θ : ℝ) {ad : String}
    (had : ad = "ductile" ∨ ad = "brittle") (g : ℝ → ℝ) (cr : PyCrushed) :
    ∃ x, (onOk (F θ ad) fun Fv => crushedRet cr (g Fv)) = .ok (.val x) := by
  obtain ⟨y, hy⟩ := F_ok θ had
  rw [hy, onOk_ok]
  exact crushedRet_val cr (g y)

theorem isNum_of_eq_val {r : EROut} {x : ℝ} (h : r = .ok (.val x)) :
    r.isNum = true := by
  subst h
  rfl

/-- `bend` returns a number whenever its validation passes, the material is
known and its dependency class is one of the two defined classes.  In
particular no check on the sign of `d_p` is in the way. -/
theorem bend_val {v_m rho_m mu_m R GF D d_p : PyNum} {material : String}
    (rho_p : PyNum) (crushed : PyCrushed) {mi : ℚ × ℚ × ℚ × String}
    (hval : validate_inputs (bendKw v_m rho_m mu_m R GF D d_p) = .ok false)
    (hmat : get_material_properties material = .ok mi)
    (had : mi.2.2.2 = "ductile" ∨ mi.2.2.2 = "brittle") :
    ∃ x, bend v_m rho_m mu_m R GF D d_p material rho_p crushed =
      .ok (.val x) := by
  unfold bend
  rw [hval, hmat]
  simp only [gate_go, onOk_ok]
  exact onOk_F_crushedRet_val _ had _ crushed

/-- `tee` returns a number whenever its validation passes and the material is
known. -/
theorem tee_val {v_m rho_m mu_m GF D d_p : PyNum} {material : String}
    (rho_p : PyNum) (crushed : PyCrushed) {mi : ℚ × ℚ × ℚ × String}
    (hval : validate_inputs (teeKw v_m rho_m mu_m GF D d_p) = .ok false)
    (hmat : get_material_properties material = .ok mi) :
    ∃ x, tee v_m rho_m mu_m GF D d_p material rho_p crushed =
      .ok (.val x) := by
  unfold tee
  rw [hval, hmat]
  simp only [gate_go, onOk_ok]
  exact crushedRet_val crushed _

/-- `straight_pipe` returns a number whenever its validation passes. -/
theorem straight_pipe_val {v_m D : PyNum} (crushed : PyCrushed)
    (hval : validate_inputs (pipeKw v_m D) = .ok false) :
    ∃ x, straight_pipe v_m D crushed = .ok (.val x) := by
  unfold straight_pipe
  rw [hval]
  simp only [gate_go]
  exact crushedRet_val crushed _

/-- `welded_joint` returns a number whenever its validation passes, the
material is known with a defined dependency class, and the location selector
is one of the two supported values. -/
theorem welded_joint_val {v_m rho_m D d_p h alpha : PyNum}
    {location material : String} (crushed : PyCrushed)
    {mi : ℚ × ℚ × ℚ × String}
    (hval : validate_inputs (weldKw v_m rho_m D d_p h alpha) = .ok false)
    (hmat : get_material_properties material = .ok mi)
    (had : mi.2.2.2 = "ductile" ∨ mi.2.2.2 = "brittle")
    (hloc : location = "downstream" ∨ location = "upstream") :
    ∃ x, welded_joint v_m rho_m D d_p h alpha location material crushed =
      .ok (.val x) := by
  unfold welded_joint
  rw [hval, hmat]
  simp only [gate_go, onOk_ok]
  rcases hloc with hl | hl <;> subst hl
  · rw [if_pos rfl]
    exact crushedRet_val crushed _
  · rw [if_neg (by decide), if_pos rfl]
    exact onOk_F_crushedRet_val _ had _ crushed

/-- `manifold` returns a number whenever its numeric arguments are actual
nonnegative numbers, `D` is positive and the material is known with a
defined dependency class. -/
theorem manifold_val {a b c gf d dp dm rp : ℚ} {material : String}
    (crushed : PyCrushed) {mi : ℚ × ℚ × ℚ × String}
    (ha : 0 ≤ a) (hb : 0 ≤ b) (hc : 0 ≤ c) (hd : 0 < d)
    (hmat : get_material_properties material = .ok mi)
    (had : mi.2.2.2 = "ductile" ∨ mi.2.2.2 = "brittle") :
    ∃ x, manifold (.num a) (.num b) (.num c) (.num gf) (.num d) (.num dp)
      (.num dm) (.num rp) material crushed = .ok (.val x) := by
  unfold manifold
  rw [validate_pass (manifoldKw (.num d) (.num dm)) nonnegOk_none
    nonnegOk_none nonnegOk_none nonnegOk_none (Or.inl rfl) numOk_none
    numOk_none (posOk_some hd) numOk_none numOk_none (numOk_some dm)
    posOk_none posOk_none posOk_none posOk_none posOk_none numOk_none
    numOk_none gapOk_none_left]
  simp only [gate_go]
  exact bend_val _ crushed
    (validate_pass _ (nonnegOk_some ha) (nonnegOk_some hb) (nonnegOk_some hc)
      nonnegOk_none (Or.inl rfl) (numOk_some (dm / d - 1 / 2))
      (numOk_some gf) (posOk_some hd) (numOk_some dp) numOk_none numOk_none
      posOk_none posOk_none posOk_none posOk_none posOk_none numOk_none
      numOk_none gapOk_none_left) hmat had

/-- `reducer` returns a number whenever its validation passes and the
material is known with a defined dependency class. -/
theorem reducer_val {v_m rho_m D1 D2 d_p GF alpha : PyNum}
    {material : String} (crushed : PyCrushed) {mi : ℚ × ℚ × ℚ × String}
    (hval : validate_inputs (reducerKw v_m rho_m D1 D2 GF d_p alpha) = .ok false)
    (hmat : get_material_properties material = .ok mi)
    (had : mi.2.2.2 = "ductile" ∨ mi.2.2.2 = "brittle") :
    ∃ x, reducer v_m rho_m D1 D2 d_p GF alpha material crushed =
      .ok (.val x) := by
  unfold reducer
  rw [hval, hmat]
  simp only [gate_go, onOk_ok]
  exact onOk_F_crushedRet_val _ had _ crushed

/-- `probes` returns a number whenever its validation passes and the material
is known with a defined dependency class. -/
theorem probes_val {v_m rho_m D d_p alpha : PyNum} {material : String}
    (crushed : PyCrushed) {mi : ℚ × ℚ × ℚ × String}
    (hval : validate_inputs (probesKw v_m rho_m D d_p alpha) = .ok false)
    (hmat : get_material_properties material = .ok mi)
    (had : mi.2.2.2 = "ductile" ∨ mi.2.2.2 = "brittle") :
    ∃ x, probes v_m rho_m D d_p alpha material crushed = .ok (.val x) := by
  unfold probes
  rw [hval, hmat]
  simp only [gate_go, onOk_ok]
  exact onOk_F_crushedRet_val _ had _ crushed

/-- The crushed epilogue on a numeric delegated result returns a number. -/
theorem crushedRetR_val (cr : PyCrushed) (x : ℝ) :
    ∃ y, crushedRetR cr (.val x) = .ok (.val y) := by
  cases h : cr.truthy
  · exact ⟨x, by simp [crushedRetR, h]⟩
  · exact ⟨x * 3, by simp [crushedRetR, h, RVal.val_mul_val]⟩

/-- `flexible` returns a number whenever the delegated bend validation passes
and the material is known with a defined dependency class. -/
theorem flexible_val {v_m rho_m mu_m mbr D d_p : PyNum} {material : String}
    (crushed : PyCrushed) {mi : ℚ × ℚ × ℚ × String}
    (hval : validate_inputs
      (bendKw v_m rho_m mu_m mbr (.num 2) D d_p) = .ok false)
    (hmat : get_material_properties material = .ok mi)
    (had : mi.2.2.2 = "ductile" ∨ mi.2.2.2 = "brittle") :
    ∃ x, flexible v_m rho_m mu_m mbr D d_p material crushed =
      .ok (.val x) := by
  unfold flexible
  obtain ⟨y, hy⟩ := bend_val (.num 2650) (.pybool false) hval hmat had
  rw [hy, onOk_ok]
  exact crushedRetR_val crushed y

/-- `nozzlevalve_wall` returns a number whenever its validation passes and
the material is known. -/
theorem nozzlevalve_wall_val {v_m d_p GF At : PyNum} {material : String}
    (crushed : PyCrushed) {mi : ℚ × ℚ × ℚ × String}
    (hval : validate_inputs (nozzleKw v_m d_p GF At) = .ok false)
    (hmat : get_material_properties material = .ok mi) :
    ∃ x, nozzlevalve_wall v_m d_p GF At material crushed = .ok (.val x) := by
  unfold nozzlevalve_wall
  rw [hval, hmat]
  simp only [gate_go, onOk_ok]
  exact crushedRet_val crushed _

/-- `choke_gallery` returns a number whenever the gallery geometry passes its
fatal checks, the numeric arguments are nonnegative numbers and the material
is known with a defined dependency class. -/
theorem choke_gallery_val {a b c gf d dp rc g hh : ℚ} {material : String}
    (crushed : PyCrushed) {mi : ℚ × ℚ × ℚ × String}
    (ha : 0 ≤ a) (hb : 0 ≤ b) (hc : 0 ≤ c)
    (hrc : 0 < rc) (hg : 0 < g) (hh1 : 0 < hh) (hgr : g ≤ rc)
    (hmat : get_material_properties material = .ok mi)
    (had : mi.2.2.2 = "ductile" ∨ mi.2.2.2 = "brittle") :
    ∃ x, choke_gallery (.num a) (.num b) (.num c) (.num gf) (.num d)
      (.num dp) (.num rc) (.num g) (.num hh) material crushed =
      .ok (.val x) := by
  unfold choke_gallery
  rw [validate_pass (chokeKw (.num rc) (.num g) (.num hh)) nonnegOk_none
    nonnegOk_none nonnegOk_none nonnegOk_none (Or.inl rfl) numOk_none
    numOk_none posOk_none numOk_none numOk_none numOk_none posOk_none
    posOk_none (posOk_some hrc) (posOk_some hg) (posOk_some hh1) numOk_none
    numOk_none (gapOk_le hgr)]
  simp only [gate_go, PyNum.qmul, PyNum.qdiv]
  have hvc : (0 : ℚ) ≤ 3 / 4 * (a * npPi / 4 * (d * d)) / (2 * hh * g) := by
    have hpi : (0 : ℚ) < npPi := by norm_num [npPi]
    have h1 : (0 : ℚ) ≤ a * npPi / 4 * (d * d) :=
      mul_nonneg (div_nonneg (mul_nonneg ha hpi.le) (by norm_num))
        (mul_self_nonneg d)
    exact div_nonneg (mul_nonneg (by norm_num) h1)
      (mul_nonneg (mul_nonneg (by norm_num) hh1.le) hg.le)
  obtain ⟨y, hy⟩ := bend_val (.num 2650) (.pybool false)
    (validate_pass _ (nonnegOk_some hvc) (nonnegOk_some hb)
      (nonnegOk_some hc) nonnegOk_none (Or.inl rfl) (numOk_some (rc / g))
      (numOk_some gf) (posOk_some hg) (numOk_some dp) numOk_none numOk_none
      posOk_none posOk_none posOk_none posOk_none posOk_none numOk_none
      numOk_none gapOk_none_left) hmat had
  rw [hy, onOk_ok]
  simp only [RVal.val_div_val, RVal.val_mul_val]
  exact crushedRetR_val crushed _

/-! The crushed-flag tripling relation, proved once per epilogue shape and
then per geometry function. -/

theorem crushedRet_triple {E x : ℝ}
    (h : crushedRet (.pybool false) E = .ok (.val x)) :
    crushedRet (.pybool true) E = .ok (.val (3 * x)) := by
  rw [crushedRet_false] at h
  injection h with h1
  injection h1 with h2
  rw [crushedRet_true, h2, mul_comm]

theorem onOk_crushed_triple {α : Type} {r : Except String α} {g : α → ℝ}
    {x : ℝ}
    (h : (onOk r fun v => crushedRet (.pybool false) (g v)) = .ok (.val x)) :
    (onOk r fun v => crushedRet (.pybool true) (g v)) = .ok (.val (3 * x)) := by
  cases r with
  | error e => rw [onOk_error] at h; exact absurd h (by simp)
  | ok y =>
    rw [onOk_ok] at h ⊢
    exact crushedRet_triple h

theorem crushedRetR_triple {v : RVal} {E : ℝ}
    (h : crushedRetR (.pybool false) v = .ok (.val E)) :
    crushedRetR (.pybool true) v = .ok (.val (3 * E)) := by
  rw [crushedRetR_false] at h
  injection h with h1
  subst h1
  rw [crushedRetR_true, RVal.val_mul_val, mul_comm]

theorem onOkR_crushed_triple {r : EROut} {g : RVal → RVal} {x : ℝ}
    (h : (onOk r fun v => crushedRetR (.pybool false) (g v)) = .ok (.val x)) :
    (onOk r fun v => crushedRetR (.pybool true) (g v)) = .ok (.val (3 * x)) := by
  cases r with
  | error e => rw [onOk_error] at h; exact absurd h (by simp)
  | ok y =>
    rw [onOk_ok] at h ⊢
    exact crushedRetR_triple h

/-- Crushed tripling for `bend`. -/
theorem bend_triple (v_m rho_m mu_m R GF D d_p : PyNum) (material : String)
    (rho_p : PyNum) {E : ℝ}
    (h : bend v_m rho_m mu_m R GF D d_p material rho_p (.pybool false) =
      .ok (.val E)) :
    bend v_m rho_m mu_m R GF D d_p material rho_p (.pybool true) =
      .ok (.val (3 * E)) := by
  unfold bend at h ⊢
  cases hval : validate_inputs (bendKw v_m rho_m mu_m R GF D d_p) with
  | error e => rw [hval, gate_error] at h; exact absurd h (by simp)
  | ok b =>
    cases b with
    | true => rw [hval, gate_nan] at h; exact absurd h (by simp)
    | false =>
      rw [hval] at h
      cases hmat : get_material_properties material with
      | error e =>
        rw [hmat] at h
        simp only [gate_go, onOk_error] at h
        exact absurd h (by simp)
      | ok mi =>
        rw [hmat] at h
        simp only [gate_go, onOk_ok] at h ⊢
        exact onOk_crushed_triple h

/-- Crushed tripling for `tee`. -/
theorem tee_triple (v_m rho_m mu_m GF D d_p : PyNum) (material : String)
    (rho_p : PyNum) {E : ℝ}
    (h : tee v_m rho_m mu_m GF D d_p material rho_p (.pybool false) =
      .ok (.val E)) :
    tee v_m rho_m mu_m GF D d_p material rho_p (.pybool true) =
      .ok (.val (3 * E)) := by
  unfold tee at h ⊢
  cases hval : validate_inputs (teeKw v_m rho_m mu_m GF D d_p) with
  | error e => rw [hval, gate_error] at h; exact absurd h (by simp)
  | ok b =>
    cases b with
    | true => rw [hval, gate_nan] at h; exact absurd h (by simp)
    | false =>
      rw [hval] at h
      simp only [gate_go] at h ⊢
      exact onOk_crushed_triple h

/-- Crushed tripling for `straight_pipe`. -/
theorem straight_pipe_triple (v_m D : PyNum) {E : ℝ}
    (h : straight_pipe v_m D (.pybool false) = .ok (.val E)) :
    straight_pipe v_m D (.pybool true) = .ok (.val (3 * E)) := by
  unfold straight_pipe at h ⊢
  cases hval : validate_inputs (pipeKw v_m D) with
  | error e => rw [hval, gate_error] at h; exact absurd h (by simp)
  | ok b =>
    cases b with
    | true => rw [hval, gate_nan] at h; exact absurd h (by simp)
    | false =>
      rw [hval] at h
      simp only [gate_go] at h ⊢
      exact crushedRet_triple h

/-- Crushed tripling for `welded_joint`, every location selector included. -/
theorem welded_joint_triple (v_m rho_m D d_p h alpha : PyNum)
    (location material : String) {E : ℝ}
    (hE : welded_joint v_m rho_m D d_p h alpha location material
      (.pybool false) = .ok (.val E)) :
    welded_joint v_m rho_m D d_p h alpha location material (.pybool true) =
      .ok (.val (3 * E)) := by
  unfold welded_joint at hE ⊢
  cases hval : validate_inputs (weldKw v_m rho_m D d_p h alpha) with
  | error e => rw [hval, gate_error] at hE; exact absurd hE (by simp)
  | ok b =>
    cases b with
    | true => rw [hval, gate_nan] at hE; exact absurd hE (by simp)
    | false =>
      rw [hval] at hE
      cases hmat : get_material_properties material with
      | error e =>
        rw [hmat] at hE
        simp only [gate_go, onOk_error] at hE
        exact absurd hE (by simp)
      | ok mi =>
        rw [hmat] at hE
        simp only [gate_go, onOk_ok] at hE ⊢
        by_cases hl : location = "downstream"
        · rw [if_pos hl] at hE ⊢
          exact crushedRet_triple hE
        · rw [if_neg hl] at hE ⊢
          by_cases hl2 : location = "upstream"
          · rw [if_pos hl2] at hE ⊢
            exact onOk_crushed_triple hE
          · rw [if_neg hl2] at hE
            exact absurd hE (by simp)

/-- Crushed tripling for `manifold` (delegates to `bend` and passes the flag
through). -/
theorem manifold_triple (v_m rho_m mu_m GF D d_p Dm rho_p : PyNum)
    (material : String) {E : ℝ}
    (h : manifold v_m rho_m mu_m GF D d_p Dm rho_p material
      (.pybool false) = .ok (.val E)) :
    manifold v_m rho_m mu_m GF D d_p Dm rho_p material (.pybool true) =
      .ok (.val (3 * E)) := by
  unfold manifold at h ⊢
  cases hval : validate_inputs (manifoldKw D Dm) with
  | error e => rw [hval, gate_error] at h; exact absurd h (by simp)
  | ok b =>
    cases b with
    | true => rw [hval, gate_nan] at h; exact absurd h (by simp)
    | false =>
      rw [hval] at h
      simp only [gate_go] at h ⊢
      exact bend_triple _ _ _ _ _ _ _ _ _ h

/-- Crushed tripling for `reducer`. -/
theorem reducer_triple (v_m rho_m D1 D2 d_p GF alpha : PyNum)
    (material : String) {E : ℝ}
    (h : reducer v_m rho_m D1 D2 d_p GF alpha material (.pybool false) =
      .ok (.val E)) :
    reducer v_m rho_m D1 D2 d_p GF alpha material (.pybool true) =
      .ok (.val (3 * E)) := by
  unfold reducer at h ⊢
  cases hval : validate_inputs (reducerKw v_m rho_m D1 D2 GF d_p alpha) with
  | error e => rw [hval, gate_error] at h; exact absurd h (by simp)
  | ok b =>
    cases b with
    | true => rw [hval, gate_nan] at h; exact absurd h (by simp)
    | false =>
      rw [hval] at h
      cases hmat : get_material_properties material with
      | error e =>
        rw [hmat] at h
        simp only [gate_go, onOk_error] at h
        exact absurd h (by simp)
      | ok mi =>
        rw [hmat] at h
        simp only [gate_go, onOk_ok] at h ⊢
        exact onOk_crushed_triple h

/-- Crushed tripling for `probes`. -/
theorem probes_triple (v_m rho_m D d_p alpha : PyNum) (material : String)
    {E : ℝ}
    (h : probes v_m rho_m D d_p alpha material (.pybool false) =
      .ok (.val E)) :
    probes v_m rho_m D d_p alpha material (.pybool true) =
      .ok (.val (3 * E)) := by
  unfold probes at h ⊢
  cases hval : validate_inputs (probesKw v_m rho_m D d_p alpha) with
  | error e => rw [hval, gate_error] at h; exact absurd h (by simp)
  | ok b =>
    cases b with
    | true => rw [hval, gate_nan] at h; exact absurd h (by simp)
    | false =>
      rw [hval] at h
      cases hmat : get_material_properties material with
      | error e =>
        rw [hmat] at h
        simp only [gate_go, onOk_error] at h
        exact absurd h (by simp)
      | ok mi =>
        rw [hmat] at h
        simp only [gate_go, onOk_ok] at h ⊢
        exact onOk_crushed_triple h

/-- Crushed tripling for `flexible` (applied to the delegated bend result). -/
theorem flexible_triple (v_m rho_m mu_m mbr D d_p : PyNum)
    (material : String) {E : ℝ}
    (h : flexible v_m rho_m mu_m mbr D d_p material (.pybool false) =
      .ok (.val E)) :
    flexible v_m rho_m mu_m mbr D d_p material (.pybool true) =
      .ok (.val (3 * E)) := by
  unfold flexible at h ⊢
  exact onOkR_crushed_triple h

/-- Crushed tripling for `choke_gallery` (applied after the bend rescaling). -/
theorem choke_gallery_triple (v_m rho_m mu_m GF D d_p R_c gap H : PyNum)
    (material : String) {E : ℝ}
    (h : choke_gallery v_m rho_m mu_m GF D d_p R_c gap H material
      (.pybool false) = .ok (.val E)) :
    choke_gallery v_m rho_m mu_m GF D d_p R_c gap H material
      (.pybool true) = .ok (.val (3 * E)) := by
  unfold choke_gallery at h ⊢
  cases hval : validate_inputs (chokeKw R_c gap H) with
  | error e => rw [hval, gate_error] at h; exact absurd h (by simp)
  | ok b =>
    cases b with
    | true => rw [hval, gate_nan] at h; exact absurd h (by simp)
    | false =>
      rw [hval] at h
      simp only [gate_go] at h ⊢
      exact onOkR_crushed_triple h

/-- Crushed tripling for `nozzlevalve_wall`. -/
theorem nozzlevalve_wall_triple (v_m d_p GF At : PyNum) (material : String)
    {E : ℝ}
    (h : nozzlevalve_wall v_m d_p GF At material (.pybool false) =
      .ok (.val E)) :
    nozzlevalve_wall v_m d_p GF At material (.pybool true) =
      .ok (.val (3 * E)) := by
  unfold nozzlevalve_wall at h ⊢
  cases hval : validate_inputs (nozzleKw v_m d_p GF At) with
  | error e => rw [hval, gate_error] at h; exact absurd h (by simp)
  | ok b =>
    cases b with
    | true => rw [hval, gate_nan] at h; exact absurd h (by simp)
    | false =>
      rw [hval] at h
      simp only [gate_go] at h ⊢
      exact onOk_crushed_triple h

namespace Transport

theorem checkAngle_ok {q : ℚ} (h0 : 0 ≤ q) (h89 : q ≤ 89) :
    checkAngle (some (.num q)) = .ok false := by
  simp [checkAngle, not_lt.mpr h0, not_lt.mpr h89]

/-- The transport validator passes on the `stokes` bundle whenever all five
arguments are nonnegative numbers and the angle is at most 89 degrees. -/
theorem stokes_validation_pass {b c dp ang rp : ℚ} (hb : 0 ≤ b) (hc : 0 ≤ c)
    (hdp : 0 ≤ dp) (hrp : 0 ≤ rp) (h0 : 0 ≤ ang) (h89 : ang ≤ 89) :
    stokes_validation (.num b) (.num c) (.num dp) (.num ang) (.num rp) =
      .ok false := by
  unfold stokes_validation validate_inputs
  simp only [stokesKw]
  rw [checkMonitored_nonneg _ hb, andThenSoft_false, checkMonitored_none,
    andThenSoft_false, checkMonitored_nonneg _ hc, andThenSoft_false,
    checkMonitored_none, andThenSoft_false, checkMonitored_nonneg _ hdp,
    andThenSoft_false, checkMonitored_none, andThenSoft_false,
    checkMonitored_nonneg _ hrp, andThenSoft_false, checkMonitored_none,
    andThenSoft_false, checkAngle_ok h0 h89, andThenSoft_false]

end Transport

/-- A key absent from an association list looks up to `none`. -/
theorem lookup_eq_none_of_not_mem {l : List (String × MaterialInfo)}
    {s : String} (h : s ∉ l.map Prod.fst) : l.lookup s = none := by
  induction l with
  | nil => rfl
  | cons p t ih =>
    obtain ⟨k, v⟩ := p
    simp only [List.map_cons, List.mem_cons] at h
    push_neg at h
    obtain ⟨h1, h2⟩ := h
    simp only [List.lookup, beq_eq_false_iff_ne.mpr h1]
    exact ih h2

/-- C1, counterexample: the claim quantifies over all numeric non-nan inputs,
but `manifold` validates only `D` and `Dm` itself, so with `v_m = -1` (a
negative monitored input) and `D = -1` (numeric, non-nan) it raises
`FunctionInputFail` from the strict diameter check instead of returning nan. -/
theorem C1_counterexample_manifold_raises :
    manifold (.num (-1)) (.num 1) (.num 1) (.num 1) (.num (-1)) (.num 1)
      (.num 1) (.num 2650) "duplex" (.pybool false) =
      .error " Pipe inner diameter, D, must be positive" := rfl

/-- C1 (amended): with every input numeric and non-nan, a negative monitored
input (`v_m`, `rho_m`, `mu_m` or `Q_s`, among those the function uses) makes
`bend`, `tee`, `straight_pipe`, `welded_joint`, `reducer`, `probes`,
`flexible`, `nozzlevalve_wall` and `erosion_rate` return nan without raising;
for `manifold` this additionally requires its separately validated `D` to be
positive, and for `choke_gallery` it requires `R_c`, `gap`, `H` positive with
`gap ≤ R_c`, plus `D ≠ 0` when the negative monitored input is `v_m` (the
delegated bend call sees the derived gallery velocity, which vanishes when
`D = 0`). -/
theorem C1_negative_monitored_returns_nan :
    (∀ (a b c : ℚ) (R GF D d_p : PyNum) (material : String) (rho_p : PyNum)
      (crushed : PyCrushed), a < 0 ∨ b < 0 ∨ c < 0 →
      bend (.num a) (.num b) (.num c) R GF D d_p material rho_p crushed =
        .ok .nan) ∧
    (∀ (a b c : ℚ) (GF D d_p : PyNum) (material : String) (rho_p : PyNum)
      (crushed : PyCrushed), a < 0 ∨ b < 0 ∨ c < 0 →
      tee (.num a) (.num b) (.num c) GF D d_p material rho_p crushed =
        .ok .nan) ∧
    (∀ (a : ℚ) (D : PyNum) (crushed : PyCrushed), a < 0 →
      straight_pipe (.num a) D crushed = .ok .nan) ∧
    (∀ (a b : ℚ) (D d_p h alpha : PyNum) (location material : String)
      (crushed : PyCrushed), a < 0 ∨ b < 0 →
      welded_joint (.num a) (.num b) D d_p h alpha location material crushed =
        .ok .nan) ∧
    (∀ (a b c : ℚ) (GF : PyNum) (d : ℚ) (d_p : PyNum) (dm : ℚ)
      (rho_p : PyNum) (material : String) (crushed : PyCrushed), 0 < d →
      a < 0 ∨ b < 0 ∨ c < 0 →
      manifold (.num a) (.num b) (.num c) GF (.num d) d_p (.num dm) rho_p
        material crushed = .ok .nan) ∧
    (∀ (a b : ℚ) (D1 D2 d_p GF alpha : PyNum) (material : String)
      (crushed : PyCrushed), a < 0 ∨ b < 0 →
      reducer (.num a) (.num b) D1 D2 d_p GF alpha material crushed =
        .ok .nan) ∧
    (∀ (a b : ℚ) (D d_p alpha : PyNum) (material : String)
      (crushed : PyCrushed), a < 0 ∨ b < 0 →
      probes (.num a) (.num b) D d_p alpha material crushed = .ok .nan) ∧
    (∀ (a b c : ℚ) (mbr D d_p : PyNum) (material : String)
      (crushed : PyCrushed), a < 0 ∨ b < 0 ∨ c < 0 →
      flexible (.num a) (.num b) (.num c) mbr D d_p material crushed =
        .ok .nan) ∧
    (∀ (a b c : ℚ) (GF : PyNum) (d : ℚ) (d_p : PyNum) (rc g hh : ℚ)
      (material : String) (crushed : PyCrushed),
      0 < rc → 0 < g → 0 < hh → g ≤ rc →
      (a < 0 ∧ d ≠ 0) ∨ b < 0 ∨ c < 0 →
      choke_gallery (.num a) (.num b) (.num c) GF (.num d) d_p (.num rc)
        (.num g) (.num hh) material crushed = .ok .nan) ∧
    (∀ (a : ℚ) (d_p GF At : PyNum) (material : String)
      (crushed : PyCrushed), a < 0 →
      nozzlevalve_wall (.num a) d_p GF At material crushed = .ok .nan) ∧
    (∀ (E_rel : PyNum) (q : ℚ), q < 0 →
      erosion_rate E_rel (.num q) = .ok .nan) := by
  refine ⟨?_, ?_, ?_, ?_, ?_, ?_, ?_, ?_, ?_, ?_, ?_⟩
  · exact fun a b c R GF D d_p mat rp cr h => bend_nan a b c R GF D d_p mat rp cr h
  · exact fun a b c GF D d_p mat rp cr h => tee_nan a b c GF D d_p mat rp cr h
  · exact fun a D cr h => straight_pipe_nan D cr h
  · exact fun a b D d_p hh al loc mat cr h => welded_joint_nan a b D d_p hh al loc mat cr h
  · exact fun a b c GF d d_p dm rp mat cr hd h => manifold_nan a b c GF d_p rp mat cr hd h
  · exact fun a b D1 D2 d_p GF al mat cr h => reducer_nan a b D1 D2 d_p GF al mat cr h
  · exact fun a b D d_p al mat cr h => probes_nan a b D d_p al mat cr h
  · exact fun a b c mbr D d_p mat cr h => flexible_nan a b c mbr D d_p mat cr h
  · exact fun a b c GF d d_p rc g hh mat cr h1 h2 h3 h4 h => choke_gallery_nan a b c GF d_p mat cr h1 h2 h3 h4 h
  · exact fun a d_p GF At mat cr h => nozzlevalve_wall_nan d_p GF At mat cr h
  · exact fun E_rel q h => erosion_rate_nan E_rel h

/-- C1, witness: the bend and manifold parts of the amended statement at
concrete inputs with `v_m = -1`. -/
theorem C1_witness :
    bend (.num (-1)) (.num 30) (.num 1) (.num 2) (.num 1) (.num 1) (.num 1)
      "duplex" (.num 2650) (.pybool false) = .ok .nan ∧
    manifold (.num (-1)) (.num 30) (.num 1) (.num 1) (.num 1) (.num 1)
      (.num 2) (.num 2650) "duplex" (.pybool false) = .ok .nan :=
  ⟨C1_negative_monitored_returns_nan.1 (-1) 30 1 _ _ _ _ "duplex" _ _
    (Or.inl (by decide)),
   C1_negative_monitored_returns_nan.2.2.2.2.1 (-1) 30 1 _ 1 _ 2 _ "duplex" _
    (by decide) (Or.inl (by decide))⟩

/-- C5: the claim says a non-boolean `crushed` raises `FunctionInputFail`,
and the validator indeed contains that check, but no geometry function puts
`crushed` into the kwargs it validates; `bend` with `crushed = 1` (an
integer) therefore behaves exactly like `crushed = True` and returns the
tripled numeric result instead of raising. -/
theorem C5_crushed_not_validated :
    bend (.num 29) (.num 30) (.num 1) (.num 2) (.num 1) (.num 1) (.num 1)
      "duplex" (.num 2650) (.pyint 1) =
      bend (.num 29) (.num 30) (.num 1) (.num 2) (.num 1) (.num 1) (.num 1)
        "duplex" (.num 2650) (.pybool true) ∧
    (bend (.num 29) (.num 30) (.num 1) (.num 2) (.num 1) (.num 1) (.num 1)
      "duplex" (.num 2650) (.pyint 1)).isNum = true :=
  ⟨rfl, by decide⟩

/-- C6, counterexample: `bend` with `d_p = -1` and every other input valid
and positive returns an actual number (`isNum`), not nan: the validator has
no effective check on the sign of `d_p` (erosion.py line 81 constructs the
exception without raising it, and `d_p` is not in the monitored loop). -/
theorem C6_counterexample_negative_dp :
    (bend (.num 29) (.num 30) (.num 1) (.num 2) (.num 1) (.num 1)
      (.num (-1)) "duplex" (.num 2650) (.pybool false)).isNum = true := by
  decide

/-- C10: in `validate_inputs` the negative-monitored soft fail is decided
before the nan checks of the geometry parameters: `bend` with `v_m = -1` and
`D = nan` returns nan without raising, while the same call with `v_m = 1`
raises the `D is not a number` failure. -/
theorem C10_soft_fail_before_nan_check :
    bend (.num (-1)) (.num 30) (.num 1) (.num 2) (.num 1) PyNum.nan (.num 1)
      "duplex" (.num 2650) (.pybool false) = .ok .nan ∧
    bend (.num 1) (.num 30) (.num 1) (.num 2) (.num 1) PyNum.nan (.num 1)
      "duplex" (.num 2650) (.pybool false) = .error "D is not a number" :=
  ⟨rfl, rfl⟩

/-- C6 (amended): a negative particle diameter `d_p` triggers neither the
soft fail nor an exception in any erosion function taking `d_p`: with every
other input valid (nonnegative monitored values, positive diameters and
gallery geometry, a known material with a defined dependency class, a valid
location for welded joints), validation passes and the function returns the
numeric formula value computed with the negative `d_p`. -/
theorem C6_negative_dp_computes_number :
    (∀ (a b c r gf d dp rp : ℚ) (material : String)
      (mi : ℚ × ℚ × ℚ × String) (cr : PyCrushed),
      0 ≤ a → 0 ≤ b → 0 ≤ c → 0 < d → dp < 0 →
      get_material_properties material = .ok mi →
      mi.2.2.2 = "ductile" ∨ mi.2.2.2 = "brittle" →
      (bend (.num a) (.num b) (.num c) (.num r) (.num gf) (.num d)
        (.num dp) material (.num rp) cr).isNum = true) ∧
    (∀ (a b c gf d dp rp : ℚ) (material : String)
      (mi : ℚ × ℚ × ℚ × String) (cr : PyCrushed),
      0 ≤ a → 0 ≤ b → 0 ≤ c → 0 < d → dp < 0 →
      get_material_properties material = .ok mi →
      (tee (.num a) (.num b) (.num c) (.num gf) (.num d) (.num dp) material
        (.num rp) cr).isNum = true) ∧
    (∀ (a b d dp hq alq : ℚ) (location material : String)
      (mi : ℚ × ℚ × ℚ × String) (cr : PyCrushed),
      0 ≤ a → 0 ≤ b → 0 < d → dp < 0 →
      get_material_properties material = .ok mi →
      mi.2.2.2 = "ductile" ∨ mi.2.2.2 = "brittle" →
      location = "downstream" ∨ location = "upstream" →
      (welded_joint (.num a) (.num b) (.num d) (.num dp) (.num hq)
        (.num alq) location material cr).isNum = true) ∧
    (∀ (a b c gf d dp dm rp : ℚ) (material : String)
      (mi : ℚ × ℚ × ℚ × String) (cr : PyCrushed),
      0 ≤ a → 0 ≤ b → 0 ≤ c → 0 < d → dp < 0 →
      get_material_properties material = .ok mi →
      mi.2.2.2 = "ductile" ∨ mi.2.2.2 = "brittle" →
      (manifold (.num a) (.num b) (.num c) (.num gf) (.num d) (.num dp)
        (.num dm) (.num rp) material cr).isNum = true) ∧
    (∀ (a b d1 d2 dp gf alq : ℚ) (material : String)
      (mi : ℚ × ℚ × ℚ × String) (cr : PyCrushed),
      0 ≤ a → 0 ≤ b → 0 < d1 → 0 < d2 → dp < 0 →
      get_material_properties material = .ok mi →
      mi.2.2.2 = "ductile" ∨ mi.2.2.2 = "brittle" →
      (reducer (.num a) (.num b) (.num d1) (.num d2) (.num dp) (.num gf)
        (.num alq) material cr).isNum = true) ∧
    (∀ (a b d dp alq : ℚ) (material : String) (mi : ℚ × ℚ × ℚ × String)
      (cr : PyCrushed),
      0 ≤ a → 0 ≤ b → 0 < d → dp < 0 →
      get_material_properties material = .ok mi →
      mi.2.2.2 = "ductile" ∨ mi.2.2.2 = "brittle" →
      (probes (.num a) (.num b) (.num d) (.num dp) (.num alq) material
        cr).isNum = true) ∧
    (∀ (a b c mbr d dp : ℚ) (material : String) (mi : ℚ × ℚ × ℚ × String)
      (cr : PyCrushed),
      0 ≤ a → 0 ≤ b → 0 ≤ c → 0 < d → dp < 0 →
      get_material_properties material = .ok mi →
      mi.2.2.2 = "ductile" ∨ mi.2.2.2 = "brittle" →
      (flexible (.num a) (.num b) (.num c) (.num mbr) (.num d) (.num dp)
        material cr).isNum = true) ∧
    (∀ (a b c gf d dp rc g hh : ℚ) (material : String)
      (mi : ℚ × ℚ × ℚ × String) (cr : PyCrushed),
      0 ≤ a → 0 ≤ b → 0 ≤ c → 0 < rc → 0 < g → 0 < hh → g ≤ rc → dp < 0 →
      get_material_properties material = .ok mi →
      mi.2.2.2 = "ductile" ∨ mi.2.2.2 = "brittle" →
      (choke_gallery (.num a) (.num b) (.num c) (.num gf) (.num d)
        (.num dp) (.num rc) (.num g) (.num hh) material cr).isNum = true) ∧
    (∀ (a dp gf at1 : ℚ) (material : String) (mi : ℚ × ℚ × ℚ × String)
      (cr : PyCrushed),
      0 ≤ a → dp < 0 →
      get_material_properties material = .ok mi →
      (nozzlevalve_wall (.num a) (.num dp) (.num gf) (.num at1) material
        cr).isNum = true) := by
  refine ⟨?_, ?_, ?_, ?_, ?_, ?_, ?_, ?_, ?_⟩
  · intro a b c r gf d dp rp material mi cr ha hb hc hd hdp hmat had
    obtain ⟨x, hx⟩ := bend_val (.num rp) cr
      (validate_pass _ (nonnegOk_some ha) (nonnegOk_some hb)
        (nonnegOk_some hc) nonnegOk_none (Or.inl rfl) (numOk_some r)
        (numOk_some gf) (posOk_some hd) (numOk_some dp) numOk_none
        numOk_none posOk_none posOk_none posOk_none posOk_none posOk_none
        numOk_none numOk_none gapOk_none_left) hmat had
    exact isNum_of_eq_val hx
  · intro a b c gf d dp rp material mi cr ha hb hc hd hdp hmat
    obtain ⟨x, hx⟩ := tee_val (.num rp) cr
      (validate_pass _ (nonnegOk_some ha) (nonnegOk_some hb)
        (nonnegOk_some hc) nonnegOk_none (Or.inl rfl) numOk_none
        (numOk_some gf) (posOk_some hd) (numOk_some dp) numOk_none
        numOk_none posOk_none posOk_none posOk_none posOk_none posOk_none
        numOk_none numOk_none gapOk_none_left) hmat
    exact isNum_of_eq_val hx
  · intro a b d dp hq alq location material mi cr ha hb hd hdp hmat had hloc
    obtain ⟨x, hx⟩ := welded_joint_val cr
      (validate_pass _ (nonnegOk_some ha) (nonnegOk_some hb) nonnegOk_none
        nonnegOk_none (Or.inl rfl) numOk_none numOk_none (posOk_some hd)
        (numOk_some dp) (numOk_some hq) numOk_none posOk_none posOk_none
        posOk_none posOk_none posOk_none (numOk_some alq) numOk_none
        gapOk_none_left) hmat had hloc
    exact isNum_of_eq_val hx
  · intro a b c gf d dp dm rp material mi cr ha hb hc hd hdp hmat had
    obtain ⟨x, hx⟩ := manifold_val cr ha hb hc hd hmat had
    exact isNum_of_eq_val hx
  · intro a b d1 d2 dp gf alq material mi cr ha hb hd1 hd2 hdp hmat had
    obtain ⟨x, hx⟩ := reducer_val cr
      (validate_pass _ (nonnegOk_some ha) (nonnegOk_some hb) nonnegOk_none
        nonnegOk_none (Or.inl rfl) numOk_none (numOk_some gf) posOk_none
        (numOk_some dp) numOk_none numOk_none (posOk_some hd1)
        (posOk_some hd2) posOk_none posOk_none posOk_none (numOk_some alq)
        numOk_none gapOk_none_left) hmat had
    exact isNum_of_eq_val hx
  · intro a b d dp alq material mi cr ha hb hd hdp hmat had
    obtain ⟨x, hx⟩ := probes_val cr
      (validate_pass _ (nonnegOk_some ha) (nonnegOk_some hb) nonnegOk_none
        nonnegOk_none (Or.inl rfl) numOk_none numOk_none (posOk_some hd)
        (numOk_some dp) numOk_none numOk_none posOk_none posOk_none
        posOk_none posOk_none posOk_none (numOk_some alq) numOk_none
        gapOk_none_left) hmat had
    exact isNum_of_eq_val hx
  · intro a b c mbr d dp material mi cr ha hb hc hd hdp hmat had
    obtain ⟨x, hx⟩ := flexible_val cr
      (validate_pass _ (nonnegOk_some ha) (nonnegOk_some hb)
        (nonnegOk_some hc) nonnegOk_none (Or.inl rfl) (numOk_some mbr)
        (numOk_some 2) (posOk_some hd) (numOk_some dp) numOk_none
        numOk_none posOk_none posOk_none posOk_none posOk_none posOk_none
        numOk_none numOk_none gapOk_none_left) hmat had
    exact isNum_of_eq_val hx
  · intro a b c gf d dp rc g hh material mi cr ha hb hc hrc hg hh1 hgr hdp
      hmat had
    obtain ⟨x, hx⟩ := choke_gallery_val cr ha hb hc hrc hg hh1 hgr hmat had
    exact isNum_of_eq_val hx
  · intro a dp gf at1 material mi cr ha hdp hmat
    obtain ⟨x, hx⟩ := nozzlevalve_wall_val cr
      (validate_pass _ (nonnegOk_some ha) nonnegOk_none nonnegOk_none
        nonnegOk_none (Or.inl rfl) numOk_none (numOk_some gf) posOk_none
        (numOk_some dp) numOk_none numOk_none posOk_none posOk_none
        posOk_none posOk_none posOk_none numOk_none (numOk_some at1)
        gapOk_none_left) hmat
    exact isNum_of_eq_val hx

/-- C6, witness: the bend part of the amended statement at `d_p = -1` with
the standard duplex material. -/
theorem C6_witness :
    (bend (.num 20) (.num 30) (.num 1) (.num 2) (.num 1) (.num 1)
      (.num (-1)) "duplex" (.num 2650) (.pybool false)).isNum = true :=
  C6_negative_dp_computes_number.1 20 30 1 2 1 1 (-1) 2650 "duplex"
    (7850, 2e-9, 2.6, "ductile") (.pybool false) (by decide) (by decide)
    (by decide) (by decide) (by decide) rfl (Or.inl rfl)

/-- C9, counterexample: the inclination 89.5 degrees lies in `[0, 90)` but
the `stokes` validation raises `FunctionInputFail` for it, because the
transport validator rejects every angle above 89. -/
theorem C9_counterexample_angle_89_5 :
    (0 : ℚ) ≤ mkRat 179 2 ∧ mkRat 179 2 < 90 ∧
    Transport.stokes_validation (.num 200) (.num 1) (.num 1)
      (.num (mkRat 179 2)) (.num 2650) =
      .error "The inclination has to be positive and below 90 deg." :=
  ⟨by decide, by decide, rfl⟩

/-- C9 (amended): `stokes` accepts every inclination angle in `[0, 89]`: for
such an angle and nonnegative numeric values of the other inputs, its
validation stage passes without raising and without soft-failing. -/
theorem C9_stokes_accepts_angles_up_to_89 :
    ∀ b c dp ang rp : ℚ, 0 ≤ b → 0 ≤ c → 0 ≤ dp → 0 ≤ rp →
      0 ≤ ang → ang ≤ 89 →
      Transport.stokes_validation (.num b) (.num c) (.num dp) (.num ang)
        (.num rp) = .ok false :=
  fun _ _ _ _ _ hb hc hdp hrp h0 h89 =>
    Transport.stokes_validation_pass hb hc hdp hrp h0 h89

/-- C9, witness: the amended statement at the boundary angle 89 with typical
inputs. -/
theorem C9_witness :
    Transport.stokes_validation (.num 200) (.num 1) (.num 1) (.num 89)
      (.num 2650) = .ok false :=
  C9_stokes_accepts_angles_up_to_89 200 1 1 89 2650 (by decide) (by decide)
    (by decide) (by decide) (by decide) (by decide)

/-- C2: for every geometry function carrying the `crushed` flag, whenever the
call with `crushed = False` returns a number `E`, the same call with
`crushed = True` returns exactly `3 * E`. -/
theorem C2_crushed_triples_result :
    (∀ (v_m rho_m mu_m R GF D d_p : PyNum) (material : String)
      (rho_p : PyNum) (E : ℝ),
      bend v_m rho_m mu_m R GF D d_p material rho_p (.pybool false) =
        .ok (.val E) →
      bend v_m rho_m mu_m R GF D d_p material rho_p (.pybool true) =
        .ok (.val (3 * E))) ∧
    (∀ (v_m rho_m mu_m GF D d_p : PyNum) (material : String)
      (rho_p : PyNum) (E : ℝ),
      tee v_m rho_m mu_m GF D d_p material rho_p (.pybool false) =
        .ok (.val E) →
      tee v_m rho_m mu_m GF D d_p material rho_p (.pybool true) =
        .ok (.val (3 * E))) ∧
    (∀ (v_m D : PyNum) (E : ℝ),
      straight_pipe v_m D (.pybool false) = .ok (.val E) →
      straight_pipe v_m D (.pybool true) = .ok (.val (3 * E))) ∧
    (∀ (v_m rho_m D d_p h alpha : PyNum) (location material : String)
      (E : ℝ),
      welded_joint v_m rho_m D d_p h alpha location material
        (.pybool false) = .ok (.val E) →
      welded_joint v_m rho_m D d_p h alpha location material
        (.pybool true) = .ok (.val (3 * E))) ∧
    (∀ (v_m rho_m mu_m GF D d_p Dm rho_p : PyNum) (material : String)
      (E : ℝ),
      manifold v_m rho_m mu_m GF D d_p Dm rho_p material (.pybool false) =
        .ok (.val E) →
      manifold v_m rho_m mu_m GF D d_p Dm rho_p material (.pybool true) =
        .ok (.val (3 * E))) ∧
    (∀ (v_m rho_m D1 D2 d_p GF alpha : PyNum) (material : String) (E : ℝ),
      reducer v_m rho_m D1 D2 d_p GF alpha material (.pybool false) =
        .ok (.val E) →
      reducer v_m rho_m D1 D2 d_p GF alpha material (.pybool true) =
        .ok (.val (3 * E))) ∧
    (∀ (v_m rho_m D d_p alpha : PyNum) (material : String) (E : ℝ),
      probes v_m rho_m D d_p alpha material (.pybool false) =
        .ok (.val E) →
      probes v_m rho_m D d_p alpha material (.pybool true) =
        .ok (.val (3 * E))) ∧
    (∀ (v_m rho_m mu_m mbr D d_p : PyNum) (material : String) (E : ℝ),
      flexible v_m rho_m mu_m mbr D d_p material (.pybool false) =
        .ok (.val E) →
      flexible v_m rho_m mu_m mbr D d_p material (.pybool true) =
        .ok (.val (3 * E))) ∧
    (∀ (v_m rho_m mu_m GF D d_p R_c gap H : PyNum) (material : String)
      (E : ℝ),
      choke_gallery v_m rho_m mu_m GF D d_p R_c gap H material
        (.pybool false) = .ok (.val E) →
      choke_gallery v_m rho_m mu_m GF D d_p R_c gap H material
        (.pybool true) = .ok (.val (3 * E))) ∧
    (∀ (v_m d_p GF At : PyNum) (material : String) (E : ℝ),
      nozzlevalve_wall v_m d_p GF At material (.pybool false) =
        .ok (.val E) →
      nozzlevalve_wall v_m d_p GF At material (.pybool true) =
        .ok (.val (3 * E))) := by
  refine ⟨?_, ?_, ?_, ?_, ?_, ?_, ?_, ?_, ?_, ?_⟩
  · exact fun v_m rho_m mu_m R GF D d_p mat rp E h =>
      bend_triple v_m rho_m mu_m R GF D d_p mat rp h
  · exact fun v_m rho_m mu_m GF D d_p mat rp E h =>
      tee_triple v_m rho_m mu_m GF D d_p mat rp h
  · exact fun v_m D E h => straight_pipe_triple v_m D h
  · exact fun v_m rho_m D d_p hh al loc mat E h =>
      welded_joint_triple v_m rho_m D d_p hh al loc mat h
  · exact fun v_m rho_m mu_m GF D d_p Dm rp mat E h =>
      manifold_triple v_m rho_m mu_m GF D d_p Dm rp mat h
  · exact fun v_m rho_m D1 D2 d_p GF al mat E h =>
      reducer_triple v_m rho_m D1 D2 d_p GF al mat h
  · exact fun v_m rho_m D d_p al mat E h =>
      probes_triple v_m rho_m D d_p al mat h
  · exact fun v_m rho_m mu_m mbr D d_p mat E h =>
      flexible_triple v_m rho_m mu_m mbr D d_p mat h
  · exact fun v_m rho_m mu_m GF D d_p R_c gap H mat E h =>
      choke_gallery_triple v_m rho_m mu_m GF D d_p R_c gap H mat h
  · exact fun v_m d_p GF At mat E h =>
      nozzlevalve_wall_triple v_m d_p GF At mat h

/-- C2, witness: the straight-pipe part of the statement at a concrete input,
with the `crushed = False` value named through `EROut.getVal`. -/
theorem C2_witness :
    straight_pipe (.num 15) (.num 1) (.pybool true) =
      .ok (.val (3 *
        (straight_pipe (.num 15) (.num 1) (.pybool false)).getVal)) :=
  C2_crushed_triples_result.2.2.1 (.num 15) (.num 1)
    ((straight_pipe (.num 15) (.num 1) (.pybool false)).getVal) rfl

/-- C3: looking up any identifier from the `get_materials` list succeeds with
a four-field record, and looking up any identifier outside the list fails
with the `FunctionInputFail` condition. -/
theorem C3_material_lookup_total :
    (∀ i : Fin get_materials.length,
      ∃ p : ℚ × ℚ × ℚ × String,
        get_material_properties (get_materials.get i) = .ok p) ∧
    (∀ s : String, s ∉ get_materials →
      ∃ e, get_material_properties s = .error e) := by
  constructor
  · intro i
    fin_cases i <;> exact ⟨_, rfl⟩
  · intro s hs
    refine ⟨"The material " ++ s ++
      " is not defined. For a full list of materials run get_materials()", ?_⟩
    unfold get_material_properties
    rw [lookup_eq_none_of_not_mem hs]

/-- C3, witness: the statement at the first listed material and at an unknown
identifier. -/
theorem C3_witness :
    (∃ p : ℚ × ℚ × ℚ × String,
      get_material_properties (get_materials.get ⟨0, by decide⟩) = .ok p) ∧
    ∃ e, get_material_properties "something_else" = .error e :=
  ⟨C3_material_lookup_total.1 ⟨0, by decide⟩,
   C3_material_lookup_total.2 "something_else" (by decide)⟩

/-- C4: boundary values of the angle dependency function: `F(0) = 0` for
both classes, `F(pi/2, brittle) = 1` exactly, and `F(pi/2, ductile)` is a
number within `1e-6` of `0.6`. -/
theorem C4_F_boundary_values :
    F 0 "ductile" = .ok 0 ∧ F 0 "brittle" = .ok 0 ∧
    F (Real.pi / 2) "brittle" = .ok 1 ∧
    ∃ x, F (Real.pi / 2) "ductile" = .ok x ∧ |x - 0.6| < 1e-6 := by
  refine ⟨?_, ?_, ?_, ?_⟩
  · unfold F
    rw [if_pos rfl]
    norm_num [Real.exp_zero]
  · unfold F
    rw [if_neg (by decide), if_pos rfl]
    norm_num
  · unfold F
    rw [if_neg (by decide), if_pos rfl]
    have h : 2 * (Real.pi / 2) = Real.pi := by ring
    rw [h, div_self Real.pi_ne_zero]
  · refine ⟨_, by unfold F; rw [if_pos rfl], ?_⟩
    have hsin : Real.sin (Real.pi / 2) = 1 := Real.sin_pi_div_two
    rw [hsin]
    have hbase : (1 : ℝ) + 7.2 * (1 - 1 ^ 2) = 1 := by norm_num
    rw [hbase, Real.one_rpow]
    have he1 : (2 : ℝ) ≤ Real.exp 1 := by
      have := Real.exp_one_gt_d9
      linarith
    have hexp31 : Real.exp 31 = Real.exp 1 ^ (31 : ℕ) := by
      rw [← Real.exp_nat_mul]
      norm_num
    have hchain : (600000 : ℝ) < Real.exp 31 := by
      calc (600000 : ℝ) < 2 ^ (31 : ℕ) := by norm_num
      _ ≤ Real.exp 1 ^ (31 : ℕ) := pow_le_pow_left₀ (by norm_num) he1 31
      _ = Real.exp 31 := hexp31.symm
    have hle : Real.exp (-(20 * (Real.pi / 2))) ≤ Real.exp (-31) := by
      apply Real.exp_le_exp.mpr
      nlinarith [Real.pi_gt_d6]
    have h31 : Real.exp (-31) < 1 / 600000 := by
      rw [Real.exp_neg, inv_lt_comm₀ (Real.exp_pos 31) (by norm_num),
        one_div, inv_inv]
      exact hchain
    have hpos : 0 < Real.exp (-(20 * (Real.pi / 2))) := Real.exp_pos _
    have heq : (0.6 : ℝ) * 1 * (1 - Real.exp (-(20 * (Real.pi / 2)))) - 0.6 =
        -(0.6 * Real.exp (-(20 * (Real.pi / 2)))) := by ring
    rw [heq, abs_neg, abs_of_nonneg (by positivity)]
    nlinarith

/-- C7: for otherwise-valid inputs (validation passes, material known with a
defined dependency class), `welded_joint` returns the downstream scalar for
`location = 'downstream'`, the upstream scalar for `location = 'upstream'`,
and raises the `FunctionInputFail` location error for every other selector. -/
theorem C7_welded_joint_location_selector :
    ∀ (v_m rho_m D d_p h alpha : PyNum) (material : String)
      (mi : ℚ × ℚ × ℚ × String),
      validate_inputs (weldKw v_m rho_m D d_p h alpha) = .ok false →
      get_material_properties material = .ok mi →
      mi.2.2.2 = "ductile" ∨ mi.2.2.2 = "brittle" →
      (∃ x, welded_joint v_m rho_m D d_p h alpha "downstream" material
        (.pybool false) = .ok (.val x)) ∧
      (∃ x, welded_joint v_m rho_m D d_p h alpha "upstream" material
        (.pybool false) = .ok (.val x)) ∧
      (∀ location : String, location ≠ "downstream" →
        location ≠ "upstream" →
        welded_joint v_m rho_m D d_p h alpha location material
          (.pybool false) =
        .error ("Location must be either downstream or upstream. " ++
          location ++ " is passed.")) := by
  intro v_m rho_m D d_p hh al material mi hval hmat had
  refine ⟨welded_joint_val _ hval hmat had (Or.inl rfl),
    welded_joint_val _ hval hmat had (Or.inr rfl), ?_⟩
  intro loc h1 h2
  unfold welded_joint
  rw [hval, hmat]
  simp only [gate_go, onOk_ok]
  rw [if_neg h1, if_neg h2]

/-- C7, witness: concrete valid inputs; the downstream call returns a number
and `location = 'sideways'` raises the location error. -/
theorem C7_witness :
    (∃ x, welded_joint (.num 15) (.num 150) (.num 1) (.num 1) (.num 1)
      (.num 60) "downstream" "duplex" (.pybool false) = .ok (.val x)) ∧
    welded_joint (.num 15) (.num 150) (.num 1) (.num 1) (.num 1) (.num 60)
      "sideways" "duplex" (.pybool false) =
      .error "Location must be either downstream or upstream. sideways is passed." :=
  have h := C7_welded_joint_location_selector (.num 15) (.num 150) (.num 1)
    (.num 1) (.num 1) (.num 60) "duplex" (7850, 2e-9, 2.6, "ductile")
    rfl rfl (Or.inl rfl)
  ⟨h.1, h.2.2 "sideways" (by decide) (by decide)⟩

/-- C8: for valid inputs (positive branch diameter; the manifold validator
checks only `D` and `Dm`), `manifold` returns exactly the value of `bend` at
the same arguments with the synthetic bend radius `R = Dm / D - 0.5`. -/
theorem C8_manifold_eq_bend :
    ∀ (v_m rho_m mu_m GF d_p rho_p : PyNum) (d dm : ℚ) (material : String)
      (crushed : PyCrushed), 0 < d →
      manifold v_m rho_m mu_m GF (.num d) d_p (.num dm) rho_p material
        crushed =
      bend v_m rho_m mu_m (.num (dm / d - 1 / 2)) GF (.num d) d_p material
        rho_p crushed := by
  intro v_m rho_m mu_m GF d_p rho_p d dm material crushed hd
  unfold manifold
  rw [validate_pass (manifoldKw (.num d) (.num dm)) nonnegOk_none
    nonnegOk_none nonnegOk_none nonnegOk_none (Or.inl rfl) numOk_none
    numOk_none (posOk_some hd) numOk_none numOk_none (numOk_some dm)
    posOk_none posOk_none posOk_none posOk_none posOk_none numOk_none
    numOk_none gapOk_none_left]
  simp only [gate_go]
  rfl

/-- C8, witness: the delegation equation at concrete inputs with `D = 1`,
`Dm = 2`. -/
theorem C8_witness :
    manifold (.num 29) (.num 30) (.num 1) (.num 1) (.num 1) (.num 1)
      (.num 2) (.num 2650) "duplex" (.pybool false) =
    bend (.num 29) (.num 30) (.num 1) (.num ((2 : ℚ) / 1 - 1 / 2)) (.num 1)
      (.num 1) (.num 1) "duplex" (.num 2650) (.pybool false) :=
  C8_manifold_eq_bend _ _ _ _ _ _ 1 2 "duplex" _ (by decide)
